import Mathlib

/-!
# FSAL_GLUSTER internals: a shallow embedding of `gluster_internal.c`

The development follows `src/FSAL/FSAL_GLUSTER/gluster_internal.c`:

* `gluster2fsal_error`       the status translator,
* `stat2fsal_attributes`     the attribute projector,
* `construct_handle`         the handle constructor,
* `fs_specific_has`          the option parser,
* `setglustercreds`          the credential switch,
* `glusterfs_get_acl`        the ACL fetch,
* `glusterfs_set_acl`        the ACL store,
* `glusterfs_process_acl`    the ACL processing ahead of an attribute set,
* `initiate_up_thread`       the upcall thread bootstrap.

Conventions.  C `int`, `time_t` and friends are `Int`; unsigned quantities are
`Nat`.  A C string is the list of its characters before the terminating NUL.
A nullable pointer is an `Option`.  Calls into libgfapi, libc allocation and
pthreads are external: their outcomes are explicit inputs of the embedded
function, and the calls made are recorded in a trace where their order
matters.  A function that can run into undefined behaviour (a null
dereference, an out-of-bounds copy) returns `Option`, with `none` for the
undefined run.
-/

namespace Gluster

/-! ## errno values (Linux, `asm-generic/errno-base.h` and `errno.h`) -/

def EPERM : Int := 1
def ENOENT : Int := 2
def EIO : Int := 5
def ENXIO : Int := 6
def EBADF : Int := 9
def EAGAIN : Int := 11
def ENOMEM : Int := 12
def EACCES : Int := 13
def EFAULT : Int := 14
def EBUSY : Int := 16
def EEXIST : Int := 17
def EXDEV : Int := 18
def ENODEV : Int := 19
def ENOTDIR : Int := 20
def EISDIR : Int := 21
def EINVAL : Int := 22
def ENFILE : Int := 23
def EMFILE : Int := 24
def EFBIG : Int := 27
def ENOSPC : Int := 28
def EMLINK : Int := 31
def EPIPE : Int := 32
def ENAMETOOLONG : Int := 36
def ENOTEMPTY : Int := 39
def ECONNABORTED : Int := 103
def ECONNRESET : Int := 104
def ECONNREFUSED : Int := 111
def ESTALE : Int := 116
def EDQUOT : Int := 122

/-- The backend codes that have a `case` label of their own in
`gluster2fsal_error`, in the order of the switch. -/
def mapped_codes : List Int :=
  [0, EPERM, ENOENT, ECONNREFUSED, ECONNABORTED, ECONNRESET, EIO, ENFILE,
   EMFILE, EPIPE, ENODEV, ENXIO, EBADF, ENOMEM, EACCES, EFAULT, EEXIST, EXDEV,
   ENOTDIR, EISDIR, EINVAL, EFBIG, ENOSPC, EMLINK, EDQUOT, ENAMETOOLONG,
   ENOTEMPTY, ESTALE, EAGAIN, EBUSY]

/-! ## Status -/

/-- The error categories `gluster_internal.c` uses (`fsal_errors_t`). -/
inductive fsal_errors_t where
  | ERR_FSAL_NO_ERROR
  | ERR_FSAL_PERM
  | ERR_FSAL_NOENT
  | ERR_FSAL_IO
  | ERR_FSAL_NXIO
  | ERR_FSAL_NOMEM
  | ERR_FSAL_ACCESS
  | ERR_FSAL_FAULT
  | ERR_FSAL_EXIST
  | ERR_FSAL_XDEV
  | ERR_FSAL_NOTDIR
  | ERR_FSAL_ISDIR
  | ERR_FSAL_INVAL
  | ERR_FSAL_FBIG
  | ERR_FSAL_NOSPC
  | ERR_FSAL_MLINK
  | ERR_FSAL_DQUOT
  | ERR_FSAL_NAMETOOLONG
  | ERR_FSAL_NOTEMPTY
  | ERR_FSAL_STALE
  | ERR_FSAL_DELAY
  | ERR_FSAL_NOT_OPENED
  | ERR_FSAL_SERVERFAULT
  deriving DecidableEq, Repr

open fsal_errors_t

/-- The two-field `fsal_status_t`. -/
structure fsal_status_t where
  major : fsal_errors_t
  minor : Int
  deriving DecidableEq, Repr

/-- The helper `fsalstat(major, minor)`. -/
def fsalstat (major : fsal_errors_t) (minor : Int) : fsal_status_t :=
  { major := major, minor := minor }

/-- The test `FSAL_IS_ERROR(status)`: the major code is not `ERR_FSAL_NO_ERROR`. -/
def FSAL_IS_ERROR (status : fsal_status_t) : Bool :=
  decide (status.major ≠ ERR_FSAL_NO_ERROR)

/-- The switch of `gluster2fsal_error`, lines 53-161: the major code chosen
for a backend code. -/
def gluster2fsal_major (gluster_errorcode : Int) : fsal_errors_t :=
  if gluster_errorcode = 0 then ERR_FSAL_NO_ERROR
  else if gluster_errorcode = EPERM then ERR_FSAL_PERM
  else if gluster_errorcode = ENOENT then ERR_FSAL_NOENT
  else if gluster_errorcode = ECONNREFUSED ∨ gluster_errorcode = ECONNABORTED
      ∨ gluster_errorcode = ECONNRESET ∨ gluster_errorcode = EIO
      ∨ gluster_errorcode = ENFILE ∨ gluster_errorcode = EMFILE
      ∨ gluster_errorcode = EPIPE then ERR_FSAL_IO
  else if gluster_errorcode = ENODEV ∨ gluster_errorcode = ENXIO then ERR_FSAL_NXIO
  else if gluster_errorcode = EBADF then ERR_FSAL_NOT_OPENED
  else if gluster_errorcode = ENOMEM then ERR_FSAL_NOMEM
  else if gluster_errorcode = EACCES then ERR_FSAL_ACCESS
  else if gluster_errorcode = EFAULT then ERR_FSAL_FAULT
  else if gluster_errorcode = EEXIST then ERR_FSAL_EXIST
  else if gluster_errorcode = EXDEV then ERR_FSAL_XDEV
  else if gluster_errorcode = ENOTDIR then ERR_FSAL_NOTDIR
  else if gluster_errorcode = EISDIR then ERR_FSAL_ISDIR
  else if gluster_errorcode = EINVAL then ERR_FSAL_INVAL
  else if gluster_errorcode = EFBIG then ERR_FSAL_FBIG
  else if gluster_errorcode = ENOSPC then ERR_FSAL_NOSPC
  else if gluster_errorcode = EMLINK then ERR_FSAL_MLINK
  else if gluster_errorcode = EDQUOT then ERR_FSAL_DQUOT
  else if gluster_errorcode = ENAMETOOLONG then ERR_FSAL_NAMETOOLONG
  else if gluster_errorcode = ENOTEMPTY then ERR_FSAL_NOTEMPTY
  else if gluster_errorcode = ESTALE then ERR_FSAL_STALE
  else if gluster_errorcode = EAGAIN ∨ gluster_errorcode = EBUSY then ERR_FSAL_DELAY
  else ERR_FSAL_SERVERFAULT

/-- The function `gluster2fsal_error`, lines 47-164: the minor field keeps the
backend code, the major field comes from the switch. -/
def gluster2fsal_error (gluster_errorcode : Int) : fsal_status_t :=
  { major := gluster2fsal_major gluster_errorcode, minor := gluster_errorcode }

/-! ## Attribute records

The declarations of `struct attrlist`, of the `ATTR_*` mask bits and of the
conversion helpers live in `fsal_types.h` and `fsal_convert.h`, outside this
file.  The mask bits carry the values of `fsal_types.h`; every attribute
field has the type of the value the projector stores into it; the conversion
helpers whose result no property below depends on are parameters. -/

def ATTR_TYPE : Nat := 0x2
def ATTR_SIZE : Nat := 0x4
def ATTR_FSID : Nat := 0x8
def ATTR_ACL : Nat := 0x20
def ATTR_FILEID : Nat := 0x40
def ATTR_MODE : Nat := 0x80
def ATTR_NUMLINKS : Nat := 0x100
def ATTR_OWNER : Nat := 0x200
def ATTR_GROUP : Nat := 0x400
def ATTR_RAWDEV : Nat := 0x800
def ATTR_ATIME : Nat := 0x1000
def ATTR_CTIME : Nat := 0x4000
def ATTR_MTIME : Nat := 0x8000
def ATTR_SPACEUSED : Nat := 0x10000
def ATTR_CHGTIME : Nat := 0x40000

/-- The test `FSAL_TEST_MASK(mask, bit)`: `mask & bit` is nonzero. -/
def FSAL_TEST_MASK (mask bit : Nat) : Bool :=
  decide (mask &&& bit ≠ 0)

/-- The update `FSAL_SET_MASK(mask, bit)`: `mask |= bit`. -/
def FSAL_SET_MASK (mask bit : Nat) : Nat :=
  mask ||| bit

/-- The object types of `object_file_type_t`; `NO_FILE_TYPE` is the value 0 a
zeroed record holds. -/
inductive object_file_type_t where
  | NO_FILE_TYPE
  | REGULAR_FILE
  | CHARACTER_FILE
  | BLOCK_FILE
  | SYMBOLIC_LINK
  | SOCKET_FILE
  | FIFO_FILE
  | DIRECTORY
  | EXTENDED_ATTR
  deriving DecidableEq, Repr

open object_file_type_t

/-- A `struct timespec`. -/
structure timespec where
  tv_sec : Int
  tv_nsec : Int
  deriving DecidableEq, Repr

/-- A major/minor pair, for `fsal_fsid_t` and `fsal_dev_t`. -/
structure fsal_pair where
  major : Nat
  minor : Nat
  deriving DecidableEq, Repr

/-- The contents of a POSIX ACL object (`acl_t`), kept opaque. -/
abbrev acl_t := List Nat

/-- The contents of a server ACL (`fsal_acl_t`), kept opaque. -/
abbrev fsal_acl_t := List Nat

/-- The fields of `struct stat` that `stat2fsal_attributes` reads. -/
structure stat where
  st_mode : Nat
  st_size : Int
  st_dev : Nat
  st_ino : Nat
  st_nlink : Nat
  st_uid : Nat
  st_gid : Nat
  st_atime : Int
  st_ctime : Int
  st_mtime : Int
  st_blocks : Int
  st_rdev : Nat
  deriving DecidableEq, Repr

/-- The fields of `struct attrlist` that this file touches. -/
structure attrlist where
  mask : Nat
  type : object_file_type_t
  filesize : Int
  fsid : fsal_pair
  fileid : Nat
  mode : Nat
  numlinks : Nat
  owner : Nat
  group : Nat
  atime : timespec
  ctime : timespec
  mtime : timespec
  chgtime : timespec
  change : Int
  spaceused : Int
  rawdev : fsal_pair
  acl : Option fsal_acl_t
  deriving DecidableEq, Repr

/-- The conversion helpers of `fsal_convert.h` whose results are stored as they
come: parameters of the projector. -/
structure fsal_convert where
  posix2fsal_type : Nat → object_file_type_t
  posix2fsal_fsid : Nat → fsal_pair
  unix2fsal_mode : Nat → Nat
  posix2fsal_devt : Nat → fsal_pair

/-- Modelled from the spec: `posix2fsal_time` is declared in `fsal_convert.h`,
which is not part of this file; it builds the timestamp with the given
seconds and nanoseconds. -/
def posix2fsal_time (tsec nsec : Int) : timespec :=
  { tv_sec := tsec, tv_nsec := nsec }

/-- The macro `MAX(a, b)`, as a conditional expression. -/
def MAX (a b : Int) : Int :=
  if a > b then a else b

/-- The block size `S_BLKSIZE` of `sys/stat.h`. -/
def S_BLKSIZE : Int := 512

/-- A guarded assignment `if (FSAL_TEST_MASK(fsalattr->mask, bit)) ...;`: the
assignment runs when the record's mask, as it then is, has the bit. -/
def guarded (bit : Nat) (assign : attrlist → attrlist) (fsalattr : attrlist) : attrlist :=
  if FSAL_TEST_MASK fsalattr.mask bit then assign fsalattr else fsalattr

/-- The function `stat2fsal_attributes`, lines 176-224: the fourteen guarded
assignments, in the order of the source. -/
def stat2fsal_attributes (cv : fsal_convert) (buffstat : stat) (fsalattr : attrlist) :
    attrlist :=
  fsalattr
    |> guarded ATTR_TYPE (fun a => { a with type := cv.posix2fsal_type buffstat.st_mode })
    |> guarded ATTR_SIZE (fun a => { a with filesize := buffstat.st_size })
    |> guarded ATTR_FSID (fun a => { a with fsid := cv.posix2fsal_fsid buffstat.st_dev })
    |> guarded ATTR_FILEID (fun a => { a with fileid := buffstat.st_ino })
    |> guarded ATTR_MODE (fun a => { a with mode := cv.unix2fsal_mode buffstat.st_mode })
    |> guarded ATTR_NUMLINKS (fun a => { a with numlinks := buffstat.st_nlink })
    |> guarded ATTR_OWNER (fun a => { a with owner := buffstat.st_uid })
    |> guarded ATTR_GROUP (fun a => { a with group := buffstat.st_gid })
    |> guarded ATTR_ATIME (fun a => { a with atime := posix2fsal_time buffstat.st_atime 0 })
    |> guarded ATTR_CTIME (fun a => { a with ctime := posix2fsal_time buffstat.st_ctime 0 })
    |> guarded ATTR_MTIME (fun a => { a with mtime := posix2fsal_time buffstat.st_mtime 0 })
    |> guarded ATTR_CHGTIME (fun a =>
        let a1 := { a with
          chgtime := posix2fsal_time (MAX buffstat.st_mtime buffstat.st_ctime) 0 }
        { a1 with change := a1.chgtime.tv_sec })
    |> guarded ATTR_SPACEUSED (fun a => { a with spaceused := buffstat.st_blocks * S_BLKSIZE })
    |> guarded ATTR_RAWDEV (fun a => { a with rawdev := cv.posix2fsal_devt buffstat.st_rdev })

/-- A reading of the conversion helpers, for evaluating the projector on
concrete records: the type comes from the `S_IFMT` bits of the mode, the
mode keeps the permission bits, device numbers are split at bit 8. -/
def std_convert : fsal_convert where
  posix2fsal_type := fun m =>
    if m &&& 0o170000 = 0o010000 then FIFO_FILE
    else if m &&& 0o170000 = 0o020000 then CHARACTER_FILE
    else if m &&& 0o170000 = 0o040000 then DIRECTORY
    else if m &&& 0o170000 = 0o060000 then BLOCK_FILE
    else if m &&& 0o170000 = 0o100000 then REGULAR_FILE
    else if m &&& 0o170000 = 0o120000 then SYMBOLIC_LINK
    else if m &&& 0o170000 = 0o140000 then SOCKET_FILE
    else NO_FILE_TYPE
  posix2fsal_fsid := fun d => { major := d / 256, minor := d % 256 }
  unix2fsal_mode := fun m => m &&& 0o7777
  posix2fsal_devt := fun d => { major := d / 256, minor := d % 256 }

/-- The record `gsh_calloc` hands out: every field zero, no ACL. -/
def zero_attrlist : attrlist where
  mask := 0
  type := NO_FILE_TYPE
  filesize := 0
  fsid := { major := 0, minor := 0 }
  fileid := 0
  mode := 0
  numlinks := 0
  owner := 0
  group := 0
  atime := { tv_sec := 0, tv_nsec := 0 }
  ctime := { tv_sec := 0, tv_nsec := 0 }
  mtime := { tv_sec := 0, tv_nsec := 0 }
  chgtime := { tv_sec := 0, tv_nsec := 0 }
  change := 0
  spaceused := 0
  rawdev := { major := 0, minor := 0 }
  acl := none

/-! ## ACL fetch -/

/-- The two kinds of POSIX ACL the backend keeps. -/
inductive acl_type_t where
  | ACL_TYPE_ACCESS
  | ACL_TYPE_DEFAULT
  deriving DecidableEq, Repr

open acl_type_t

/-- The outcome of one `glfs_h_acl_get`: an ACL, or a null result with the
value `errno` holds after the call. -/
inductive acl_get_result where
  | acl (a : acl_t)
  | null (err : Int)
  deriving DecidableEq, Repr

/-- The backend and the ACL converters of `nfs4_acls.h`, as far as
`glusterfs_get_acl` calls them: what `glfs_h_acl_get` answers for a
filesystem, an object and an ACL type, and the status and ACL reference the
two converters leave. -/
structure acl_backend where
  glfs_h_acl_get : Nat → Nat → acl_type_t → acl_get_result
  posix_acl_2_fsal_acl : acl_t → fsal_status_t × Option fsal_acl_t
  posix_acl_2_fsal_acl_for_dir : acl_t → Option acl_t → fsal_status_t × Option fsal_acl_t

/-- A backend call made by the ACL fetch. -/
inductive acl_call where
  | acl_get (fs : Nat) (glhandle : Nat) (type : acl_type_t)
  | convert (e_acl : acl_t)
  | convert_for_dir (e_acl : acl_t) (i_acl : Option acl_t)
  deriving DecidableEq, Repr

/-- The record `glusterfs_fsal_xstat_t`, as far as this file uses it. -/
structure glusterfs_fsal_xstat_t where
  is_dir : Bool
  e_acl : Option acl_t
  i_acl : Option acl_t
  attr_valid : Nat
  deriving DecidableEq, Repr

/-- The bit `XATTR_ACL` of `gluster_internal.h`. -/
def XATTR_ACL : Nat := 0x2

/-- The fields of `struct glusterfs_export` this file reads; the supported
attribute mask stands for the answer of `exp_ops.fs_supported_attrs`. -/
structure glusterfs_export where
  gl_fs : Nat
  saveduid : Nat
  savedgid : Nat
  fs_supported_attrs : Nat
  deriving DecidableEq, Repr

/-- What `glusterfs_get_acl` leaves behind: the status, the two records it
writes, `errno`, and the backend calls in the order made. -/
structure get_acl_result where
  status : fsal_status_t
  buffxstat : glusterfs_fsal_xstat_t
  fsalattr : attrlist
  errno : Int
  calls : List acl_call
  deriving DecidableEq, Repr

/-- The outcome of `glfs_h_acl_get` as the pointer the caller stores. -/
def acl_get_result.ptr : acl_get_result → Option acl_t
  | .acl a => some a
  | .null _ => none

/-- The value of `errno` after a `glfs_h_acl_get`. -/
def acl_get_result.errno_after (errno : Int) : acl_get_result → Int
  | .acl _ => errno
  | .null err => err

/-- The function `glusterfs_get_acl`, lines 398-440.  `acl_support` is the
value of `NFSv4_ACL_SUPPORT`, `errno` the ambient value on entry. -/
def glusterfs_get_acl (be : acl_backend) (acl_support : Bool) (errno : Int)
    (glfs_export : glusterfs_export) (glhandle : Nat)
    (buffxstat : glusterfs_fsal_xstat_t) (fsalattr : attrlist) : get_acl_result :=
  let status : fsal_status_t := { major := ERR_FSAL_NO_ERROR, minor := 0 }
  let fsalattr := { fsalattr with acl := none }
  if acl_support && FSAL_TEST_MASK fsalattr.mask ATTR_ACL then
    let r := be.glfs_h_acl_get glfs_export.gl_fs glhandle ACL_TYPE_ACCESS
    let errno := r.errno_after errno
    let calls := [acl_call.acl_get glfs_export.gl_fs glhandle ACL_TYPE_ACCESS]
    let buffxstat := { buffxstat with e_acl := r.ptr }
    match buffxstat.e_acl with
    | some e_acl =>
      let buffxstat :=
        { buffxstat with attr_valid := FSAL_SET_MASK buffxstat.attr_valid XATTR_ACL }
      if buffxstat.is_dir then
        let ri := be.glfs_h_acl_get glfs_export.gl_fs glhandle ACL_TYPE_DEFAULT
        let errno := ri.errno_after errno
        let calls := calls ++ [acl_call.acl_get glfs_export.gl_fs glhandle ACL_TYPE_DEFAULT]
        let buffxstat := { buffxstat with i_acl := ri.ptr }
        let c := be.posix_acl_2_fsal_acl_for_dir e_acl buffxstat.i_acl
        { status := c.1, buffxstat := buffxstat, fsalattr := { fsalattr with acl := c.2 },
          errno := errno,
          calls := calls ++ [acl_call.convert_for_dir e_acl buffxstat.i_acl] }
      else
        let c := be.posix_acl_2_fsal_acl e_acl
        { status := c.1, buffxstat := buffxstat, fsalattr := { fsalattr with acl := c.2 },
          errno := errno, calls := calls ++ [acl_call.convert e_acl] }
    | none =>
      { status := gluster2fsal_error errno, buffxstat := buffxstat, fsalattr := fsalattr,
        errno := errno, calls := calls }
  else
    { status := status, buffxstat := buffxstat, fsalattr := fsalattr, errno := errno,
      calls := [] }

/-! ## Handle construction -/

/-- The lengths of `gluster_internal.h`: the volume identity, the backend-local
identifier, and the global identifier that holds both. -/
def GLAPI_UUID_LENGTH : Nat := 16
def GFAPI_HANDLE_LENGTH : Nat := 16
def GLAPI_HANDLE_LENGTH : Nat := 32

/-- The fields of `struct glusterfs_handle` that `construct_handle` sets;
`handle_type` is the type handed to `fsal_obj_handle_init`. -/
structure glusterfs_handle where
  glhandle : Nat
  globjhdl : List Nat
  glfd : Option Nat
  attributes : attrlist
  handle_type : Option object_file_type_t
  deriving DecidableEq, Repr

/-- The library call `memcpy(dst + off, src, n)` on byte lists: undefined when
it reads past the source or writes past the destination. -/
def memcpy (dst : List Nat) (off : Nat) (src : List Nat) (n : Nat) : Option (List Nat) :=
  if n ≤ src.length ∧ off + n ≤ dst.length then
    some (dst.take off ++ src.take n ++ dst.drop (off + n))
  else none

/-- What `construct_handle` leaves behind: the return value, the output
handle `*obj`, `errno`, and whether the record allocated was freed. -/
structure construct_result where
  ret : Int
  obj : Option glusterfs_handle
  errno : Int
  freed : Bool
  deriving DecidableEq, Repr

/-- The record `gsh_calloc` hands to `construct_handle`: every byte zero. -/
def zero_handle : glusterfs_handle where
  glhandle := 0
  globjhdl := List.replicate GLAPI_HANDLE_LENGTH 0
  glfd := none
  attributes := zero_attrlist
  handle_type := none

/-- Lines 266-270 of `construct_handle`: the attributes of the zeroed record
once the mask is the export's supported attributes and the stat data is
projected. -/
def constructing_attributes (cv : fsal_convert) (glexport : glusterfs_export)
    (sb : stat) : attrlist :=
  stat2fsal_attributes cv sb
    { zero_handle.attributes with mask := glexport.fs_supported_attrs }

/-- Lines 258 and 272-278 of `construct_handle`: the ACL fetch, on the zeroed
`buffxstat` with `is_dir` set from the projected type. -/
def constructing_acl (cv : fsal_convert) (be : acl_backend) (acl_support : Bool)
    (errno : Int) (glexport : glusterfs_export) (sb : stat) (glhandle : Nat) :
    get_acl_result :=
  let buffxstat : glusterfs_fsal_xstat_t :=
    { is_dir := false, e_acl := none, i_acl := none, attr_valid := 0 }
  let buffxstat :=
    if (constructing_attributes cv glexport sb).type = DIRECTORY then
      { buffxstat with is_dir := true }
    else { buffxstat with is_dir := false }
  glusterfs_get_acl be acl_support errno glexport glhandle buffxstat
    (constructing_attributes cv glexport sb)

/-- The function `construct_handle`, lines 248-305.  `alloc_ok` tells whether
`gsh_calloc` hands out a record; `none` is the undefined run of a `memcpy`
over a source shorter than the length copied. -/
def construct_handle (cv : fsal_convert) (be : acl_backend) (acl_support : Bool)
    (alloc_ok : Bool) (errno : Int) (glexport : glusterfs_export) (sb : stat)
    (glhandle : Nat) (globjhdl : List Nat) (len : Int) (vol_uuid : List Nat) :
    Option construct_result :=
  let _ := len
  if !alloc_ok then
    some { ret := -1, obj := none, errno := ENOMEM, freed := false }
  else
    let constructing := zero_handle
    let r := constructing_acl cv be acl_support errno glexport sb glhandle
    let status := r.status
    let attributes := r.fsalattr
    let errno := r.errno
    if FSAL_IS_ERROR status
        && !(decide (attributes.type = SYMBOLIC_LINK) && decide (status.minor = ENOENT)) then
      some { ret := -1, obj := none, errno := EINVAL, freed := true }
    else
      (memcpy constructing.globjhdl 0 vol_uuid GLAPI_UUID_LENGTH).bind fun g1 =>
      (memcpy g1 GLAPI_UUID_LENGTH globjhdl GFAPI_HANDLE_LENGTH).bind fun g2 =>
      some { ret := 0,
             obj := some { glhandle := glhandle, globjhdl := g2, glfd := none,
                           attributes := attributes,
                           handle_type := some attributes.type },
             errno := errno, freed := false }

/-! ## Option parser -/

/-- The byte `strncpy` pads with. -/
def NUL : Char := Char.ofNat 0

/-- One call `strtok_r(.., ",", &next_comma)` on the text the save pointer
points at: leading commas are skipped; there is no token when nothing is
left; otherwise the token runs up to the next comma or the end of the text,
and the save pointer moves past that comma. -/
def strtok_r (save : List Char) : Option (List Char × List Char) :=
  match save.dropWhile (· == ',') with
  | [] => none
  | c :: cs =>
    some ((c :: cs).takeWhile (· != ','), ((c :: cs).dropWhile (· != ',')).drop 1)

/-- The call `strsep(&v, "=")` with `v` pointing at the token: the key `k` is
the text before the first `=`, and `v` is left at the text after it, or
null when the token has no `=`. -/
def strsep (option : List Char) : List Char × Option (List Char) :=
  if '=' ∈ option then
    (option.takeWhile (· != '='), some ((option.dropWhile (· != '=')).drop 1))
  else (option, none)

/-- The conversion of an `int` to `size_t` (64 bits). -/
def size_t_of_int (m : Int) : Nat :=
  (m % 2 ^ 64).toNat

/-- The conversion of a `size_t` to `int` (32 bits, two's complement). -/
def int_of_size_t (n : Nat) : Int :=
  ((n : Int) + 2 ^ 31) % 2 ^ 32 - 2 ^ 31

/-- The library call `strncpy(dst, src, n)` on a buffer given by its bytes:
exactly `n` bytes are written, the first `min n (strlen src)` from the
source and NUL bytes after them; undefined when `n` exceeds the buffer. -/
def strncpy (dst src : List Char) (n : Nat) : Option (List Char) :=
  if n ≤ dst.length then
    some (src.take n ++ List.replicate (n - src.length) NUL ++ dst.drop n)
  else none

/-- What `fs_specific_has` leaves behind: the return value, the value buffer
and the size parameter (each absent when the caller passed null). -/
structure fs_specific_result where
  ret : Bool
  val : Option (List Char)
  max_val_bytes : Option Int
  deriving DecidableEq, Repr

/-- The body of `if (0 == strcmp(k, key))`, lines 347-352, with `v` as
`strsep` left it.  Undefined (`none`) when `strncpy` or `strlen` is handed a
null `v`, when `*max_val_bytes` is read through a null pointer, or when
`strncpy` writes past the buffer. -/
def fs_specific_found (v : Option (List Char)) (val : Option (List Char))
    (max_val_bytes : Option Int) : Option fs_specific_result :=
  let val1 : Option (Option (List Char)) :=
    match val with
    | none => some none
    | some buf =>
      match v, max_val_bytes with
      | some vs, some m => (strncpy buf vs (size_t_of_int m)).map some
      | _, _ => none
  let max1 : Option (Option Int) :=
    match max_val_bytes with
    | none => some none
    | some _ =>
      match v with
      | some vs => some (some (int_of_size_t (vs.length + 1)))
      | none => none
  val1.bind fun val2 => max1.bind fun max2 =>
    some { ret := true, val := val2, max_val_bytes := max2 }

/-- The loop of lines 340-354 over the private copy, from the save pointer
on.  The first argument bounds the number of tokens still to come; every
token takes at least one character, so `fs_specific_has` passes more than
the copy has characters and the bound is never reached. -/
def fs_specific_loop (key : List Char) (val : Option (List Char))
    (max_val_bytes : Option Int) : Nat → List Char → Option fs_specific_result
  | 0, _ => none
  | fuel + 1, save =>
    match strtok_r save with
    | none => some { ret := false, val := val, max_val_bytes := max_val_bytes }
    | some (option, next_comma) =>
      if (strsep option).1 = key then
        fs_specific_found (strsep option).2 val max_val_bytes
      else fs_specific_loop key val max_val_bytes fuel next_comma

/-- The function `fs_specific_has`, lines 324-360.  `strdup_ok` tells whether
`gsh_strdup` hands out the private copy; a null `fs_specific` is `none`. -/
def fs_specific_has (strdup_ok : Bool) (fs_specific : Option (List Char))
    (key : List Char) (val : Option (List Char)) (max_val_bytes : Option Int) :
    Option fs_specific_result :=
  match fs_specific with
  | none => some { ret := false, val := val, max_val_bytes := max_val_bytes }
  | some [] => some { ret := false, val := val, max_val_bytes := max_val_bytes }
  | some (c :: cs) =>
    if !strdup_ok then some { ret := false, val := val, max_val_bytes := max_val_bytes }
    else fs_specific_loop key val max_val_bytes ((c :: cs).length + 1) (c :: cs)

/-- The comma-separated tokens of an option string, as the spec reads it:
the non-empty pieces between the commas, in order. -/
def option_tokens (s : List Char) : List (List Char) :=
  (s.splitOn ',').filter (fun t => !t.isEmpty)

/-- The key part of a token `key` or `key=value`: the text before the first
`=`. -/
def token_key (t : List Char) : List Char :=
  t.takeWhile (· != '=')

/-- The value part of a token: the text after the first `=`, absent for a
bare `key`. -/
def token_value (t : List Char) : Option (List Char) :=
  if '=' ∈ t then some ((t.dropWhile (· != '=')).drop 1) else none

/-- The first token of an option string whose key part is the target key. -/
def first_match (s key : List Char) : Option (List Char) :=
  (option_tokens s).find? (fun t => decide (token_key t = key))

/-! ## Credential switch -/

/-- The calling thread's filesystem identity. -/
structure thread_creds where
  fsuid : Nat
  fsgid : Nat
  groups : List Nat
  deriving DecidableEq, Repr

/-- An identity-change call into libgfapi, with its arguments. -/
inductive cred_call where
  | setfsuid (uid : Nat)
  | setfsgid (gid : Nat)
  | setfsgroups (n : Nat) (groups : Option (List Nat))
  deriving DecidableEq, Repr

/-- The return codes libgfapi gives the identity-change calls. -/
structure cred_backend where
  setfsuid_rc : Nat → Int
  setfsgid_rc : Nat → Int
  setfsgroups_rc : Nat → Option (List Nat) → Int

/-- The thread identity together with the identity-change calls made so far. -/
structure cred_state where
  creds : thread_creds
  calls : List cred_call
  deriving DecidableEq, Repr

/-- The libgfapi call `glfs_setfsuid`, an external whose effect is modelled on
the explicit thread identity: on success (code 0) the thread's effective
user id becomes `uid`, on failure the identity stays as it was. -/
def glfs_setfsuid (be : cred_backend) (uid : Nat) (s : cred_state) : Int × cred_state :=
  (be.setfsuid_rc uid,
   { creds := if be.setfsuid_rc uid = 0 then { s.creds with fsuid := uid } else s.creds,
     calls := s.calls ++ [cred_call.setfsuid uid] })

/-- The libgfapi call `glfs_setfsgid`, an external modelled likewise: on
success (code 0) the thread's effective group id becomes `gid`, on failure
the identity stays as it was. -/
def glfs_setfsgid (be : cred_backend) (gid : Nat) (s : cred_state) : Int × cred_state :=
  (be.setfsgid_rc gid,
   { creds := if be.setfsgid_rc gid = 0 then { s.creds with fsgid := gid } else s.creds,
     calls := s.calls ++ [cred_call.setfsgid gid] })

/-- The libgfapi call `glfs_setfsgroups`, an external modelled likewise: on
success (code 0) the thread's supplementary groups become the first `n`
entries of the list (none for a null list), on failure they stay as they
were. -/
def glfs_setfsgroups (be : cred_backend) (n : Nat) (groups : Option (List Nat))
    (s : cred_state) : Int × cred_state :=
  (be.setfsgroups_rc n groups,
   { creds := if be.setfsgroups_rc n groups = 0 then
       { s.creds with groups := (groups.getD []).take n } else s.creds,
     calls := s.calls ++ [cred_call.setfsgroups n groups] })

/-- Lines 367-372 of `setglustercreds`: the user step, entered with `rc = 0`. -/
def creds_uid_step (be : cred_backend) (glfs_export : glusterfs_export)
    (uid : Option Nat) (s : cred_state) : Int × cred_state :=
  match uid with
  | some u => if u ≠ glfs_export.saveduid then glfs_setfsuid be u s else (0, s)
  | none => glfs_setfsuid be glfs_export.saveduid s

/-- Lines 376-381 of `setglustercreds`: the group step, entered with `rc = 0`. -/
def creds_gid_step (be : cred_backend) (glfs_export : glusterfs_export)
    (gid : Option Nat) (s : cred_state) : Int × cred_state :=
  match gid with
  | some g => if g ≠ glfs_export.savedgid then glfs_setfsgid be g s else (0, s)
  | none => glfs_setfsgid be glfs_export.savedgid s

/-- Lines 385-388 of `setglustercreds`: the supplementary groups step. -/
def creds_groups_step (be : cred_backend) (ngrps : Nat) (groups : Option (List Nat))
    (s : cred_state) : Int × cred_state :=
  if ngrps ≠ 0 ∧ groups.isSome then glfs_setfsgroups be ngrps groups s
  else glfs_setfsgroups be 0 none s

/-- The function `setglustercreds`, lines 362-392: the return code and the
state after it; a nonzero code of the user or group step goes straight to
`out`. -/
def setglustercreds (be : cred_backend) (glfs_export : glusterfs_export)
    (uid gid : Option Nat) (ngrps : Nat) (groups : Option (List Nat)) (s : cred_state) :
    Int × cred_state :=
  let r1 := creds_uid_step be glfs_export uid s
  if r1.1 ≠ 0 then r1
  else
    let r2 := creds_gid_step be glfs_export gid r1.2
    if r2.1 ≠ 0 then r2
    else creds_groups_step be ngrps groups r2.2

/-! ## Upcall thread bootstrap -/

/-- The return codes of the pthread calls `initiate_up_thread` makes;
`create i` is the code of the `pthread_create` attempt number `i`, counted
from 0. -/
structure pthread_env where
  attr_init : Int
  attr_setscope : Int
  attr_setdetachstate : Int
  attr_setstacksize : Int
  create : Nat → Int
  attr_destroy : Int

/-- A call made by `initiate_up_thread`. -/
inductive up_event where
  | attr_init
  | attr_setscope
  | attr_setdetachstate
  | attr_setstacksize (size : Nat)
  | create
  | sleep (secs : Nat)
  | attr_destroy
  deriving DecidableEq, Repr

/-- The `do ... while (err && (err == EAGAIN) && (retries-- > 0))` loop of
lines 552-558, entered with `retries` left and `i` attempts made: the last
`err` and the calls made. -/
def create_loop (env : pthread_env) : Nat → Nat → List up_event → Int × List up_event
  | retries, i, tr =>
    if env.create i ≠ 0 ∧ env.create i = EAGAIN then
      match retries with
      | 0 => (env.create i, tr ++ [up_event.create, up_event.sleep 1])
      | r + 1 => create_loop env r (i + 1) (tr ++ [up_event.create, up_event.sleep 1])
    else (env.create i, tr ++ [up_event.create, up_event.sleep 1])

/-- What `initiate_up_thread` leaves behind: the return value and the calls in
the order made. -/
structure up_result where
  retval : Int
  trace : List up_event
  deriving DecidableEq, Repr

/-- The function `initiate_up_thread`, lines 507-578. -/
def initiate_up_thread (env : pthread_env) : up_result :=
  if env.attr_init ≠ 0 then
    { retval := -1, trace := [up_event.attr_init, up_event.attr_destroy] }
  else if env.attr_setscope ≠ 0 then
    { retval := -1,
      trace := [up_event.attr_init, up_event.attr_setscope, up_event.attr_destroy] }
  else if env.attr_setdetachstate ≠ 0 then
    { retval := -1,
      trace := [up_event.attr_init, up_event.attr_setscope, up_event.attr_setdetachstate,
        up_event.attr_destroy] }
  else if env.attr_setstacksize ≠ 0 then
    { retval := -1,
      trace := [up_event.attr_init, up_event.attr_setscope, up_event.attr_setdetachstate,
        up_event.attr_setstacksize 2116488, up_event.attr_destroy] }
  else
    let r := create_loop env 10 0
      [up_event.attr_init, up_event.attr_setscope, up_event.attr_setdetachstate,
        up_event.attr_setstacksize 2116488]
    if r.1 ≠ 0 then { retval := -1, trace := r.2 ++ [up_event.attr_destroy] }
    else { retval := 0, trace := r.2 ++ [up_event.attr_destroy] }

/-- The number of `pthread_create` attempts in a trace. -/
def create_attempts (tr : List up_event) : Nat :=
  tr.count up_event.create

/-- The id a user or group step leaves when it succeeds: the saved id when none
is supplied, the supplied id when it differs from the saved one, and the
prior id, no call being made, when the supplied id is the saved one. -/
def id_after (supplied : Option Nat) (saved prior : Nat) : Nat :=
  match supplied with
  | some u => if u = saved then prior else u
  | none => saved

/-! ## Calls of the credential switch -/

/-- The return code libgfapi gives an identity-change call. -/
def call_rc (be : cred_backend) : cred_call → Int
  | cred_call.setfsuid uid => be.setfsuid_rc uid
  | cred_call.setfsgid gid => be.setfsgid_rc gid
  | cred_call.setfsgroups n groups => be.setfsgroups_rc n groups

/-- The place of an identity-change call in the order user, group,
supplementary groups. -/
def call_rank : cred_call → Nat
  | cred_call.setfsuid _ => 0
  | cred_call.setfsgid _ => 1
  | cred_call.setfsgroups _ _ => 2

/-- The user call of `setglustercreds`, lines 367-372, when one is made. -/
def uid_call (glfs_export : glusterfs_export) (uid : Option Nat) : List cred_call :=
  match uid with
  | some u => if u ≠ glfs_export.saveduid then [cred_call.setfsuid u] else []
  | none => [cred_call.setfsuid glfs_export.saveduid]

/-- The group call of `setglustercreds`, lines 376-381, when one is made. -/
def gid_call (glfs_export : glusterfs_export) (gid : Option Nat) : List cred_call :=
  match gid with
  | some g => if g ≠ glfs_export.savedgid then [cred_call.setfsgid g] else []
  | none => [cred_call.setfsgid glfs_export.savedgid]

/-- The value of `rc` after a user or group step: the code of the call made,
and the 0 it was entered with when no call is made. -/
def step_rc (be : cred_backend) : List cred_call → Int
  | [] => 0
  | c :: _ => call_rc be c

/-- The supplementary groups call of `setglustercreds`, lines 385-388. -/
def groups_call (ngrps : Nat) (groups : Option (List Nat)) : cred_call :=
  if ngrps ≠ 0 ∧ groups.isSome then cred_call.setfsgroups ngrps groups
  else cred_call.setfsgroups 0 none

/-! ## ACL store and ACL processing -/

/-- The backend write `glfs_h_acl_set` and the converter `fsal_acl_2_posix_acl`
of `nfs4_acls.h`, as far as `glusterfs_set_acl` and `glusterfs_process_acl`
call them: the return code of a write, and the POSIX ACL a conversion
yields (null when it yields none). -/
structure acl_store_backend where
  glfs_h_acl_set : Nat → Nat → acl_type_t → Option acl_t → Int
  fsal_acl_2_posix_acl : fsal_acl_t → acl_type_t → Option acl_t

/-- A call made by the ACL store or by the ACL processing. -/
inductive store_call where
  | acl_set (fs : Nat) (glhandle : Nat) (type : acl_type_t) (acl : Option acl_t)
  | to_posix (acl : fsal_acl_t) (type : acl_type_t)
  deriving DecidableEq, Repr

/-- What `glusterfs_set_acl` leaves behind: the status and the calls made. -/
structure set_acl_result where
  status : fsal_status_t
  calls : List store_call
  deriving DecidableEq, Repr

/-- The function `glusterfs_set_acl`, lines 445-469; `glhandle` is the
`objhandle->glhandle` of the object. -/
def glusterfs_set_acl (be : acl_store_backend) (glfs_export : glusterfs_export)
    (glhandle : Nat) (buffxstat : glusterfs_fsal_xstat_t) : set_acl_result :=
  let rc := be.glfs_h_acl_set glfs_export.gl_fs glhandle ACL_TYPE_ACCESS buffxstat.e_acl
  let calls :=
    [store_call.acl_set glfs_export.gl_fs glhandle ACL_TYPE_ACCESS buffxstat.e_acl]
  if rc < 0 then { status := fsalstat ERR_FSAL_INVAL 0, calls := calls }
  else if buffxstat.is_dir && buffxstat.i_acl.isSome then
    let rc := be.glfs_h_acl_set glfs_export.gl_fs glhandle ACL_TYPE_DEFAULT buffxstat.i_acl
    let calls := calls ++
      [store_call.acl_set glfs_export.gl_fs glhandle ACL_TYPE_DEFAULT buffxstat.i_acl]
    if rc < 0 then { status := fsalstat ERR_FSAL_INVAL 0, calls := calls }
    else { status := fsalstat ERR_FSAL_NO_ERROR 0, calls := calls }
  else { status := fsalstat ERR_FSAL_NO_ERROR 0, calls := calls }

/-- What `glusterfs_process_acl` leaves behind: the status, the record
`buffxstat` and the conversions made. -/
structure process_acl_result where
  status : fsal_status_t
  buffxstat : glusterfs_fsal_xstat_t
  calls : List store_call
  deriving DecidableEq, Repr

/-- The function `glusterfs_process_acl`, lines 474-505; of `attrs` only the
ACL reference is read, `fs` and `object` are not used. -/
def glusterfs_process_acl (be : acl_store_backend) (fs object : Nat) (attrs : attrlist)
    (buffxstat : glusterfs_fsal_xstat_t) : process_acl_result :=
  let _ := fs
  let _ := object
  match attrs.acl with
  | some acl =>
    let buffxstat := { buffxstat with e_acl := be.fsal_acl_2_posix_acl acl ACL_TYPE_ACCESS }
    let calls := [store_call.to_posix acl ACL_TYPE_ACCESS]
    match buffxstat.e_acl with
    | none => { status := fsalstat ERR_FSAL_FAULT 0, buffxstat := buffxstat, calls := calls }
    | some _ =>
      if buffxstat.is_dir then
        { status := fsalstat ERR_FSAL_NO_ERROR 0,
          buffxstat :=
            { buffxstat with i_acl := be.fsal_acl_2_posix_acl acl ACL_TYPE_DEFAULT },
          calls := calls ++ [store_call.to_posix acl ACL_TYPE_DEFAULT] }
      else { status := fsalstat ERR_FSAL_NO_ERROR 0, buffxstat := buffxstat, calls := calls }
  | none => { status := fsalstat ERR_FSAL_FAULT 0, buffxstat := buffxstat, calls := [] }

/-! ## Sample inputs -/

/-- An export whose saved identity is root and whose supported attributes are
the type and the ACL. -/
def sample_export : glusterfs_export :=
  { gl_fs := 1, saveduid := 0, savedgid := 0, fs_supported_attrs := ATTR_TYPE ||| ATTR_ACL }

/-- The stat data of a symbolic link (`S_IFLNK`, mode 0777) whose modify-time
and change-time are equal. -/
def symlink_stat : stat where
  st_mode := 0o120777
  st_size := 11
  st_dev := 2049
  st_ino := 42
  st_nlink := 1
  st_uid := 1000
  st_gid := 1000
  st_atime := 1700000000
  st_ctime := 1700000000
  st_mtime := 1700000000
  st_blocks := 0
  st_rdev := 0

/-- Thread creation that fails once with EAGAIN and then succeeds, the
attribute calls all succeeding. -/
def eagain_then_ok : pthread_env where
  attr_init := 0
  attr_setscope := 0
  attr_setdetachstate := 0
  attr_setstacksize := 0
  create := fun i => if i = 0 then EAGAIN else 0
  attr_destroy := 0

/-- A backend whose identity-change calls all succeed. -/
def ok_creds : cred_backend where
  setfsuid_rc := fun _ => 0
  setfsgid_rc := fun _ => 0
  setfsgroups_rc := fun _ _ => 0

/-- A backend with no ACL to give: every retrieval fails with ENOENT. -/
def enoent_backend : acl_backend where
  glfs_h_acl_get := fun _ _ _ => acl_get_result.null ENOENT
  posix_acl_2_fsal_acl := fun _ => ({ major := ERR_FSAL_NO_ERROR, minor := 0 }, none)
  posix_acl_2_fsal_acl_for_dir := fun _ _ =>
    ({ major := ERR_FSAL_NO_ERROR, minor := 0 }, none)

/-- A symbolic link's record with the ACL attribute requested. -/
def symlink_attrs : attrlist :=
  { zero_attrlist with mask := ATTR_ACL, type := SYMBOLIC_LINK }

/-- The zeroed `buffxstat` of `construct_handle`. -/
def zero_xstat : glusterfs_fsal_xstat_t :=
  { is_dir := false, e_acl := none, i_acl := none, attr_valid := 0 }

/-- A backend that has an access ACL and an inherited ACL for every object. -/
def acl_backend_full : acl_backend where
  glfs_h_acl_get := fun _ _ t =>
    match t with
    | ACL_TYPE_ACCESS => acl_get_result.acl [1, 2, 3]
    | ACL_TYPE_DEFAULT => acl_get_result.acl [4]
  posix_acl_2_fsal_acl := fun e => ({ major := ERR_FSAL_NO_ERROR, minor := 0 }, some e)
  posix_acl_2_fsal_acl_for_dir := fun e i =>
    ({ major := ERR_FSAL_NO_ERROR, minor := 0 }, some (e ++ i.getD []))

/-- A record with nothing requested that holds an ACL reference. -/
def attrs_with_acl : attrlist :=
  { zero_attrlist with acl := some [9] }

/-- Attribute initialisation fails: nothing else is attempted but the release. -/
def attr_init_fails : pthread_env where
  attr_init := 12
  attr_setscope := 0
  attr_setdetachstate := 0
  attr_setstacksize := 0
  create := fun _ => 0
  attr_destroy := 22

/-- A backend whose ACL retrieval fails and leaves errno at 0. -/
def silent_backend : acl_backend where
  glfs_h_acl_get := fun _ _ _ => acl_get_result.null 0
  posix_acl_2_fsal_acl := fun _ => ({ major := ERR_FSAL_NO_ERROR, minor := 0 }, none)
  posix_acl_2_fsal_acl_for_dir := fun _ _ =>
    ({ major := ERR_FSAL_NO_ERROR, minor := 0 }, none)

/-- The stat data of a regular file. -/
def regular_stat : stat :=
  { symlink_stat with st_mode := 0o100644 }

/-! ## Theorems -/

/-- C1: for every backend code c, gluster2fsal_error c keeps c in the minor
field, and its major field is the category of the table for each listed
code and SERVERFAULT for every code that is not listed, negative codes
included. -/
theorem gluster2fsal_error_table (c : Int) :
    (gluster2fsal_error c).minor = c
    ∧ (c = 0 → (gluster2fsal_error c).major = ERR_FSAL_NO_ERROR)
    ∧ (c = EPERM → (gluster2fsal_error c).major = ERR_FSAL_PERM)
    ∧ (c = ENOENT → (gluster2fsal_error c).major = ERR_FSAL_NOENT)
    ∧ (c ∈ [ECONNREFUSED, ECONNABORTED, ECONNRESET, EIO, ENFILE, EMFILE, EPIPE]
        → (gluster2fsal_error c).major = ERR_FSAL_IO)
    ∧ (c ∈ [ENODEV, ENXIO] → (gluster2fsal_error c).major = ERR_FSAL_NXIO)
    ∧ (c = EBADF → (gluster2fsal_error c).major = ERR_FSAL_NOT_OPENED)
    ∧ (c = ENOMEM → (gluster2fsal_error c).major = ERR_FSAL_NOMEM)
    ∧ (c = EACCES → (gluster2fsal_error c).major = ERR_FSAL_ACCESS)
    ∧ (c = EFAULT → (gluster2fsal_error c).major = ERR_FSAL_FAULT)
    ∧ (c = EEXIST → (gluster2fsal_error c).major = ERR_FSAL_EXIST)
    ∧ (c = EXDEV → (gluster2fsal_error c).major = ERR_FSAL_XDEV)
    ∧ (c = ENOTDIR → (gluster2fsal_error c).major = ERR_FSAL_NOTDIR)
    ∧ (c = EISDIR → (gluster2fsal_error c).major = ERR_FSAL_ISDIR)
    ∧ (c = EINVAL → (gluster2fsal_error c).major = ERR_FSAL_INVAL)
    ∧ (c = EFBIG → (gluster2fsal_error c).major = ERR_FSAL_FBIG)
    ∧ (c = ENOSPC → (gluster2fsal_error c).major = ERR_FSAL_NOSPC)
    ∧ (c = EMLINK → (gluster2fsal_error c).major = ERR_FSAL_MLINK)
    ∧ (c = EDQUOT → (gluster2fsal_error c).major = ERR_FSAL_DQUOT)
    ∧ (c = ENAMETOOLONG → (gluster2fsal_error c).major = ERR_FSAL_NAMETOOLONG)
    ∧ (c = ENOTEMPTY → (gluster2fsal_error c).major = ERR_FSAL_NOTEMPTY)
    ∧ (c = ESTALE → (gluster2fsal_error c).major = ERR_FSAL_STALE)
    ∧ (c ∈ [EAGAIN, EBUSY] → (gluster2fsal_error c).major = ERR_FSAL_DELAY)
    ∧ (c ∉ mapped_codes → (gluster2fsal_error c).major = ERR_FSAL_SERVERFAULT) := by
  refine ⟨rfl, ?_, ?_, ?_, ?_, ?_, ?_, ?_, ?_, ?_, ?_, ?_, ?_, ?_, ?_, ?_, ?_, ?_, ?_,
    ?_, ?_, ?_, ?_, ?_⟩
  all_goals intro h
  all_goals
    simp only [gluster2fsal_error, gluster2fsal_major, mapped_codes, EPERM, ENOENT, EIO,
      ENXIO, EBADF, EAGAIN, ENOMEM, EACCES, EFAULT, EBUSY, EEXIST, EXDEV, ENODEV,
      ENOTDIR, EISDIR, EINVAL, ENFILE, EMFILE, EFBIG, ENOSPC, EMLINK, EPIPE,
      ENAMETOOLONG, ENOTEMPTY, ECONNABORTED, ECONNRESET, ECONNREFUSED, ESTALE, EDQUOT,
      List.mem_cons, List.mem_singleton, List.not_mem_nil, or_false, not_or] at h ⊢
  all_goals
    first
      | (subst h; decide)
      | (rcases h with h | h | h | h | h | h | h <;> subst h <;> decide)
      | (rcases h with h | h <;> subst h <;> decide)
      | (obtain ⟨h0, h1, h2, h3, h4, h5, h6, h7, h8, h9, h10, h11, h12, h13, h14, h15,
          h16, h17, h18, h19, h20, h21, h22, h23, h24, h25, h26, h27, h28, h29⟩ := h
         simp [*])

/-! ### The attribute projector -/

/-- A guarded assignment that keeps the mask keeps it whether it runs or not. -/
theorem guarded_mask (bit : Nat) (f : attrlist → attrlist) (a : attrlist)
    (hf : ∀ x, (f x).mask = x.mask) : (guarded bit f a).mask = a.mask := by
  unfold guarded
  split_ifs
  · exact hf a
  · rfl

/-- A field after a guarded assignment: the assigned one when the bit is set,
the old one when it is not. -/
theorem guarded_proj {β : Type} (π : attrlist → β) (bit : Nat) (f : attrlist → attrlist)
    (a : attrlist) :
    π (guarded bit f a) = if FSAL_TEST_MASK a.mask bit then π (f a) else π a := by
  unfold guarded
  split_ifs <;> rfl

/-- The projector keeps the mask. -/
theorem projected_mask (cv : fsal_convert) (st : stat) (a : attrlist) :
    (stat2fsal_attributes cv st a).mask = a.mask := by
  simp only [stat2fsal_attributes, guarded_mask, implies_true]

/-- The type after the projector. -/
theorem projected_type_eq (cv : fsal_convert) (st : stat) (a : attrlist) :
    (stat2fsal_attributes cv st a).type =
      (if FSAL_TEST_MASK a.mask ATTR_TYPE then cv.posix2fsal_type st.st_mode else a.type) := by
  simp only [stat2fsal_attributes, guarded_mask, guarded_proj attrlist.type, ite_self,
    implies_true]

/-- The change-time after the projector. -/
theorem projected_chgtime_eq (cv : fsal_convert) (st : stat) (a : attrlist) :
    (stat2fsal_attributes cv st a).chgtime =
      (if FSAL_TEST_MASK a.mask ATTR_CHGTIME then
        posix2fsal_time (MAX st.st_mtime st.st_ctime) 0 else a.chgtime) := by
  simp only [stat2fsal_attributes, guarded_mask, guarded_proj attrlist.chgtime, ite_self,
    implies_true]

/-- The change counter after the projector. -/
theorem projected_change_eq (cv : fsal_convert) (st : stat) (a : attrlist) :
    (stat2fsal_attributes cv st a).change =
      (if FSAL_TEST_MASK a.mask ATTR_CHGTIME then MAX st.st_mtime st.st_ctime
        else a.change) := by
  simp only [stat2fsal_attributes, guarded_mask, guarded_proj attrlist.change, ite_self,
    implies_true, posix2fsal_time]

/-- C4: stat2fsal_attributes stores the projected value into each of type,
filesize, fsid, fileid, mode, numlinks, owner, group, atime, ctime, mtime,
chgtime and change, spaceused, rawdev when that field's bit is set in the
caller's mask and keeps the caller's value when it is not; the mask and the
ACL reference are kept in every case. -/
theorem stat2fsal_attributes_frame (cv : fsal_convert) (st : stat) (a : attrlist) :
    (stat2fsal_attributes cv st a).mask = a.mask
    ∧ (stat2fsal_attributes cv st a).acl = a.acl
    ∧ (stat2fsal_attributes cv st a).type =
        (if FSAL_TEST_MASK a.mask ATTR_TYPE then cv.posix2fsal_type st.st_mode else a.type)
    ∧ (stat2fsal_attributes cv st a).filesize =
        (if FSAL_TEST_MASK a.mask ATTR_SIZE then st.st_size else a.filesize)
    ∧ (stat2fsal_attributes cv st a).fsid =
        (if FSAL_TEST_MASK a.mask ATTR_FSID then cv.posix2fsal_fsid st.st_dev else a.fsid)
    ∧ (stat2fsal_attributes cv st a).fileid =
        (if FSAL_TEST_MASK a.mask ATTR_FILEID then st.st_ino else a.fileid)
    ∧ (stat2fsal_attributes cv st a).mode =
        (if FSAL_TEST_MASK a.mask ATTR_MODE then cv.unix2fsal_mode st.st_mode else a.mode)
    ∧ (stat2fsal_attributes cv st a).numlinks =
        (if FSAL_TEST_MASK a.mask ATTR_NUMLINKS then st.st_nlink else a.numlinks)
    ∧ (stat2fsal_attributes cv st a).owner =
        (if FSAL_TEST_MASK a.mask ATTR_OWNER then st.st_uid else a.owner)
    ∧ (stat2fsal_attributes cv st a).group =
        (if FSAL_TEST_MASK a.mask ATTR_GROUP then st.st_gid else a.group)
    ∧ (stat2fsal_attributes cv st a).atime =
        (if FSAL_TEST_MASK a.mask ATTR_ATIME then posix2fsal_time st.st_atime 0 else a.atime)
    ∧ (stat2fsal_attributes cv st a).ctime =
        (if FSAL_TEST_MASK a.mask ATTR_CTIME then posix2fsal_time st.st_ctime 0 else a.ctime)
    ∧ (stat2fsal_attributes cv st a).mtime =
        (if FSAL_TEST_MASK a.mask ATTR_MTIME then posix2fsal_time st.st_mtime 0 else a.mtime)
    ∧ (stat2fsal_attributes cv st a).chgtime =
        (if FSAL_TEST_MASK a.mask ATTR_CHGTIME then
          posix2fsal_time (MAX st.st_mtime st.st_ctime) 0 else a.chgtime)
    ∧ (stat2fsal_attributes cv st a).change =
        (if FSAL_TEST_MASK a.mask ATTR_CHGTIME then MAX st.st_mtime st.st_ctime else a.change)
    ∧ (stat2fsal_attributes cv st a).spaceused =
        (if FSAL_TEST_MASK a.mask ATTR_SPACEUSED then st.st_blocks * S_BLKSIZE
          else a.spaceused)
    ∧ (stat2fsal_attributes cv st a).rawdev =
        (if FSAL_TEST_MASK a.mask ATTR_RAWDEV then cv.posix2fsal_devt st.st_rdev
          else a.rawdev) := by
  refine ⟨projected_mask cv st a, ?_, ?_, ?_, ?_, ?_, ?_, ?_, ?_, ?_, ?_, ?_, ?_,
    projected_chgtime_eq cv st a, projected_change_eq cv st a, ?_, ?_⟩
  all_goals
    simp only [stat2fsal_attributes, guarded_mask, guarded_proj attrlist.acl,
      guarded_proj attrlist.type, guarded_proj attrlist.filesize, guarded_proj attrlist.fsid,
      guarded_proj attrlist.fileid, guarded_proj attrlist.mode,
      guarded_proj attrlist.numlinks, guarded_proj attrlist.owner,
      guarded_proj attrlist.group, guarded_proj attrlist.atime, guarded_proj attrlist.ctime,
      guarded_proj attrlist.mtime, guarded_proj attrlist.spaceused,
      guarded_proj attrlist.rawdev, ite_self, implies_true]

/-- C10: when the change-time bit is set in the mask, stat2fsal_attributes
leaves a change-time whose seconds are the numeric maximum of the stat's
modify-time and change-time and whose nanoseconds are 0, and a change
counter equal to those seconds. -/
theorem stat2fsal_attributes_chgtime (cv : fsal_convert) (st : stat) (a : attrlist)
    (hbit : FSAL_TEST_MASK a.mask ATTR_CHGTIME = true) :
    (stat2fsal_attributes cv st a).chgtime.tv_sec = max st.st_mtime st.st_ctime
    ∧ (stat2fsal_attributes cv st a).chgtime.tv_nsec = 0
    ∧ (stat2fsal_attributes cv st a).change = max st.st_mtime st.st_ctime := by
  have hmax : MAX st.st_mtime st.st_ctime = max st.st_mtime st.st_ctime := by
    unfold MAX
    split_ifs with h
    · exact (max_eq_left (le_of_lt h)).symm
    · exact (max_eq_right (not_lt.mp h)).symm
  rw [projected_chgtime_eq, projected_change_eq, hbit]
  simp [posix2fsal_time, hmax]

/-! ### The option parser -/

/-- The first piece of a split at commas is the text before the first comma; the
other pieces are the split of the text after it. -/
theorem splitOn_comma_cons (cs : List Char) :
    cs.splitOn ',' = cs.takeWhile (· != ',') ::
      (match cs.dropWhile (· != ',') with
       | [] => []
       | _ :: r => r.splitOn ',') := by
  induction cs with
  | nil => rfl
  | cons x xs ih =>
    unfold List.splitOn at ih ⊢
    rw [List.splitOnP_cons]
    by_cases hx : x = ','
    · subst hx
      simp
    · have h1 : (x == ',') = false := by simpa using hx
      have h2 : (x != ',') = true := by simpa using hx
      rw [ih]
      simp [h1, h2, List.takeWhile_cons, List.dropWhile_cons, List.modifyHead]

/-- The call of strsep yields the key part and the value part of the token. -/
theorem strsep_eq (t : List Char) : strsep t = (token_key t, token_value t) := by
  unfold strsep token_key token_value
  split_ifs with h
  · rfl
  · have : t.takeWhile (· != '=') = t := by
      rw [List.takeWhile_eq_self_iff]
      intro x hx
      have : x ≠ '=' := fun e => h (e ▸ hx)
      simpa using this
    rw [this]

/-- One call of strtok_r delivers the first token of the text and leaves the
save pointer at a strictly shorter text holding the other tokens. -/
theorem strtok_r_tokens (save : List Char) :
    match strtok_r save with
    | none => option_tokens save = []
    | some (tok, rest) =>
      option_tokens save = tok :: option_tokens rest ∧ rest.length < save.length := by
  induction save with
  | nil => rfl
  | cons c cs ih =>
    by_cases hc : c = ','
    · subst hc
      have h1 : strtok_r (',' :: cs) = strtok_r cs := by
        simp [strtok_r, List.dropWhile_cons]
      have h2 : option_tokens (',' :: cs) = option_tokens cs := by
        simp [option_tokens, List.splitOn, List.splitOnP_cons]
      rw [h1, h2]
      cases hs : strtok_r cs with
      | none => rw [hs] at ih; exact ih
      | some p =>
        rw [hs] at ih
        obtain ⟨tok, rest⟩ := p
        simp only at ih ⊢
        exact ⟨ih.1, by simp only [List.length_cons]; omega⟩
    · have h1 : (c == ',') = false := by simpa using hc
      have h2 : (c != ',') = true := by simpa using hc
      have hs : strtok_r (c :: cs) =
          some (c :: cs.takeWhile (· != ','), (cs.dropWhile (· != ',')).drop 1) := by
        simp [strtok_r, List.dropWhile_cons, List.takeWhile_cons, h1, h2]
      rw [hs]
      simp only
      constructor
      · unfold option_tokens
        rw [splitOn_comma_cons (c :: cs)]
        simp only [List.takeWhile_cons, List.dropWhile_cons, h2, if_true]
        rw [List.filter_cons]
        simp only [List.isEmpty_cons, Bool.not_false, if_true]
        congr 1
        cases hd : cs.dropWhile (· != ',') with
        | nil => rfl
        | cons d r => rfl
      · have := (List.dropWhile_sublist (l := cs) (· != ',')).length_le
        simp only [List.length_drop, List.length_cons]
        omega

/-- The first matching token of a list with a head token. -/
theorem first_match_cons (tok : List Char) (ts : List (List Char)) (key : List Char) :
    (tok :: ts).find? (fun t => decide (token_key t = key)) =
      if token_key tok = key then some tok
      else ts.find? (fun t => decide (token_key t = key)) := by
  rw [List.find?_cons]
  by_cases h : token_key tok = key <;> simp [h]

/-- With more fuel than characters the loop never runs out of fuel: it answers
from the first token whose key part is the target key. -/
theorem fs_specific_loop_eq (key : List Char) (val : Option (List Char))
    (max_val_bytes : Option Int) (fuel : Nat) :
    ∀ save : List Char, save.length < fuel →
      fs_specific_loop key val max_val_bytes fuel save =
        match first_match save key with
        | none => some { ret := false, val := val, max_val_bytes := max_val_bytes }
        | some t => fs_specific_found (token_value t) val max_val_bytes := by
  induction fuel with
  | zero => intro save h; omega
  | succ n ih =>
    intro save hlen
    have ht := strtok_r_tokens save
    unfold fs_specific_loop first_match
    cases hs : strtok_r save with
    | none =>
      rw [hs] at ht
      simp only at ht
      rw [ht]
      rfl
    | some p =>
      obtain ⟨tok, rest⟩ := p
      rw [hs] at ht
      simp only at ht
      obtain ⟨htok, hrest⟩ := ht
      rw [htok, first_match_cons]
      simp only [strsep_eq]
      by_cases hk : token_key tok = key
      · simp only [hk, if_true]
      · simp only [hk, if_false]
        rw [ih rest (by omega)]
        rfl

/-- Once the private copy is allocated, fs_specific_has answers from the first
token whose key part is the target key. -/
theorem fs_specific_has_eq (s key : List Char) (val : Option (List Char))
    (max_val_bytes : Option Int) :
    fs_specific_has true (some s) key val max_val_bytes =
      match first_match s key with
      | none => some { ret := false, val := val, max_val_bytes := max_val_bytes }
      | some t => fs_specific_found (token_value t) val max_val_bytes := by
  cases s with
  | nil => rfl
  | cons c cs =>
    simp only [fs_specific_has, Bool.not_true, Bool.false_eq_true, if_false]
    exact fs_specific_loop_eq key val max_val_bytes _ _ (by omega)

/-- C3, on the code: when the first token whose key is the target key is a bare
key, a call of fs_specific_has with a value buffer and a size parameter hands
the null value pointer to strncpy and strlen: the run is undefined, no result
is returned. -/
theorem fs_specific_has_bare_key (s key t buf : List Char) (m : Int)
    (hfirst : first_match s key = some t) (hbare : token_value t = none) :
    fs_specific_has true (some s) key (some buf) (some m) = none := by
  rw [fs_specific_has_eq, hfirst]
  simp only [hbare]
  rfl

/-- The run of C3 on the option string of the source comment, key enable_A. -/
theorem fs_specific_has_bare_key_witness :
    first_match "foo=baz,enable_A".toList "enable_A".toList = some "enable_A".toList
    ∧ token_value "enable_A".toList = none
    ∧ fs_specific_has true (some "foo=baz,enable_A".toList) "enable_A".toList
        (some (List.replicate 8 'x')) (some 8) = none :=
  ⟨by decide, by decide,
   fs_specific_has_bare_key "foo=baz,enable_A".toList "enable_A".toList "enable_A".toList
     (List.replicate 8 'x') 8 (by decide) (by decide)⟩

/-- Two runs against C8 as stated: with the private copy not allocated the key
foo of the string foo=baz is not found; with a value buffer supplied the
bare key enable_A yields no result at all. -/
theorem fs_specific_has_counterexample :
    (fs_specific_has false (some "foo=baz".toList) "foo".toList none none
        = some { ret := false, val := none, max_val_bytes := none }
      ∧ "foo=baz".toList ∈ option_tokens "foo=baz".toList
      ∧ token_key "foo=baz".toList = "foo".toList)
    ∧ (fs_specific_has true (some "enable_A".toList) "enable_A".toList
        (some (List.replicate 8 'x')) (some 8) = none
      ∧ "enable_A".toList ∈ option_tokens "enable_A".toList
      ∧ token_key "enable_A".toList = "enable_A".toList) := by
  decide

/-- C8, as the code has it: for a null or empty option string fs_specific_has
returns false and leaves the buffer and the size parameter as they were, and
so it does when the private copy cannot be allocated.  Once the copy is
allocated, for a call whose buffer, if any, comes with a size parameter
within the buffer's capacity, and whose first token with the target key
either has a value part or is asked for with neither buffer nor size
parameter: the call returns, true exactly when the string is non-empty and
some token has the target key; on false nothing is changed; on true the
buffer holds the value of the first such token, cut and padded to the size
given, and the size parameter holds that value's length plus 1. -/
theorem fs_specific_has_first_match (s key : List Char) (val : Option (List Char))
    (max_val_bytes : Option Int)
    (hbuf : ∀ buf, val = some buf →
      ∃ m, max_val_bytes = some m ∧ size_t_of_int m ≤ buf.length)
    (hbare : ∀ t, first_match s key = some t → token_value t = none →
      val = none ∧ max_val_bytes = none) :
    (∀ ok, fs_specific_has ok none key val max_val_bytes
        = some { ret := false, val := val, max_val_bytes := max_val_bytes })
    ∧ (∀ ok, fs_specific_has ok (some []) key val max_val_bytes
        = some { ret := false, val := val, max_val_bytes := max_val_bytes })
    ∧ fs_specific_has false (some s) key val max_val_bytes
        = some { ret := false, val := val, max_val_bytes := max_val_bytes }
    ∧ ∃ r, fs_specific_has true (some s) key val max_val_bytes = some r
        ∧ (r.ret = true ↔ s ≠ [] ∧ ∃ t ∈ option_tokens s, token_key t = key)
        ∧ (r.ret = false → r.val = val ∧ r.max_val_bytes = max_val_bytes)
        ∧ (∀ t, first_match s key = some t →
            (∀ buf m, val = some buf → max_val_bytes = some m →
              ∃ v, token_value t = some v
                ∧ r.val = some (v.take (size_t_of_int m)
                    ++ List.replicate (size_t_of_int m - v.length) NUL
                    ++ buf.drop (size_t_of_int m)))
            ∧ (∀ m, max_val_bytes = some m →
              ∃ v, token_value t = some v
                ∧ r.max_val_bytes = some (int_of_size_t (v.length + 1))
                ∧ (v.length + 1 < 2 ^ 31 → int_of_size_t (v.length + 1) = v.length + 1))
            ∧ (val = none → r.val = none)
            ∧ (max_val_bytes = none → r.max_val_bytes = none)) := by
  refine ⟨fun ok => rfl, fun ok => rfl, ?_, ?_⟩
  · cases s <;> rfl
  · rw [fs_specific_has_eq]
    cases hf : first_match s key with
    | none =>
      refine ⟨_, rfl, ?_, fun _ => ⟨rfl, rfl⟩, ?_⟩
      · simp only [Bool.false_eq_true, false_iff, not_and, not_exists]
        intro _ t ht hk
        have := List.find?_eq_none.mp hf t ht
        simp [hk] at this
      · intro t ht; cases ht
    | some t =>
      have hmem : t ∈ option_tokens s := List.mem_of_find?_eq_some hf
      have hkey : token_key t = key := by
        have := List.find?_some hf
        simpa using this
      have hne : s ≠ [] := by
        rintro rfl
        simp [option_tokens, List.splitOn, List.splitOnP_nil] at hmem
      have hiff : (true = true ↔ s ≠ [] ∧ ∃ t ∈ option_tokens s, token_key t = key) :=
        ⟨fun _ => ⟨hne, t, hmem, hkey⟩, fun _ => rfl⟩
      have hwrap : ∀ v : List Char, v.length + 1 < 2 ^ 31 →
          int_of_size_t (v.length + 1) = v.length + 1 := by
        intro v hv
        unfold int_of_size_t
        have : ((v.length + 1 : ℕ) : ℤ) < 2 ^ 31 := by exact_mod_cast hv
        push_cast at this ⊢
        omega
      simp only []
      cases hv : token_value t with
      | none =>
        obtain ⟨rfl, rfl⟩ := hbare t hf hv
        refine ⟨_, rfl, hiff, (fun h => by cases h), ?_⟩
        intro t2 _
        exact ⟨(fun buf m h => by cases h), (fun m h => by cases h), (fun _ => rfl),
          (fun _ => rfl)⟩
      | some v =>
        cases val with
        | none =>
          cases max_val_bytes with
          | none =>
            refine ⟨_, rfl, hiff, (fun h => by cases h), ?_⟩
            intro t2 _
            exact ⟨(fun buf m h => by cases h), (fun m h => by cases h), (fun _ => rfl),
              (fun _ => rfl)⟩
          | some m =>
            refine ⟨_, rfl, hiff, (fun h => by cases h), ?_⟩
            intro t2 ht2
            cases ht2
            refine ⟨(fun buf m h => by cases h), ?_, (fun _ => rfl), (fun h => by cases h)⟩
            intro m2 _
            exact ⟨v, hv, rfl, hwrap v⟩
        | some buf =>
          obtain ⟨m, rfl, hm⟩ := hbuf buf rfl
          have hcp : strncpy buf v (size_t_of_int m) =
              some (v.take (size_t_of_int m)
                ++ List.replicate (size_t_of_int m - v.length) NUL
                ++ buf.drop (size_t_of_int m)) := by
            unfold strncpy
            rw [if_pos hm]
          refine ⟨{ ret := true,
                    val := some (v.take (size_t_of_int m)
                      ++ List.replicate (size_t_of_int m - v.length) NUL
                      ++ buf.drop (size_t_of_int m)),
                    max_val_bytes := some (int_of_size_t (v.length + 1)) }, ?_, hiff,
                  (fun h => by cases h), ?_⟩
          · simp only [fs_specific_found, hcp]
            rfl
          · intro t2 ht2
            cases ht2
            refine ⟨?_, ?_, (fun h => by cases h), (fun h => by cases h)⟩
            · intro buf2 m2 hb hm2
              cases hb
              cases hm2
              exact ⟨v, hv, rfl⟩
            · intro m2 _
              exact ⟨v, hv, rfl, hwrap v⟩

/-! ### The credential switch -/

/-- The user step: on return code 0 the user id is the one asked for, unless
the id supplied is the export's saved one, when no call is made; the group id
is kept. -/
theorem creds_uid_step_post (be : cred_backend) (ex : glusterfs_export)
    (uid : Option Nat) (s : cred_state) (h0 : (creds_uid_step be ex uid s).1 = 0) :
    (creds_uid_step be ex uid s).2.creds.fsuid =
        id_after uid ex.saveduid s.creds.fsuid
    ∧ (creds_uid_step be ex uid s).2.creds.fsgid = s.creds.fsgid := by
  unfold creds_uid_step at h0
  unfold creds_uid_step id_after
  cases uid with
  | none =>
    simp only [glfs_setfsuid] at h0 ⊢
    rw [if_pos h0]
    exact ⟨rfl, rfl⟩
  | some u =>
    simp only [ne_eq, ite_not] at h0 ⊢
    split_ifs at h0 ⊢ with hu
    · exact ⟨rfl, rfl⟩
    · simp only [glfs_setfsuid] at h0 ⊢
      rw [if_pos h0]
      exact ⟨rfl, rfl⟩

/-- The group step: on return code 0 the group id is the one asked for, unless
the id supplied is the export's saved one, when no call is made; the user id
is kept. -/
theorem creds_gid_step_post (be : cred_backend) (ex : glusterfs_export)
    (gid : Option Nat) (s : cred_state) (h0 : (creds_gid_step be ex gid s).1 = 0) :
    (creds_gid_step be ex gid s).2.creds.fsgid =
        id_after gid ex.savedgid s.creds.fsgid
    ∧ (creds_gid_step be ex gid s).2.creds.fsuid = s.creds.fsuid := by
  unfold creds_gid_step at h0
  unfold creds_gid_step id_after
  cases gid with
  | none =>
    simp only [glfs_setfsgid] at h0 ⊢
    rw [if_pos h0]
    exact ⟨rfl, rfl⟩
  | some g =>
    simp only [ne_eq, ite_not] at h0 ⊢
    split_ifs at h0 ⊢ with hg
    · exact ⟨rfl, rfl⟩
    · simp only [glfs_setfsgid] at h0 ⊢
      rw [if_pos h0]
      exact ⟨rfl, rfl⟩

/-- The supplementary groups step keeps the user and group ids. -/
theorem creds_groups_step_post (be : cred_backend) (ngrps : Nat)
    (groups : Option (List Nat)) (s : cred_state) :
    (creds_groups_step be ngrps groups s).2.creds.fsuid = s.creds.fsuid
    ∧ (creds_groups_step be ngrps groups s).2.creds.fsgid = s.creds.fsgid := by
  unfold creds_groups_step glfs_setfsgroups
  split_ifs <;> exact ⟨rfl, rfl⟩

/-- The ids setglustercreds leaves when it returns 0. -/
theorem setglustercreds_post (be : cred_backend) (ex : glusterfs_export)
    (uid gid : Option Nat) (ngrps : Nat) (groups : Option (List Nat)) (s : cred_state)
    (h0 : (setglustercreds be ex uid gid ngrps groups s).1 = 0) :
    (setglustercreds be ex uid gid ngrps groups s).2.creds.fsuid =
        id_after uid ex.saveduid s.creds.fsuid
    ∧ (setglustercreds be ex uid gid ngrps groups s).2.creds.fsgid =
        id_after gid ex.savedgid s.creds.fsgid := by
  unfold setglustercreds at h0 ⊢
  simp only [ne_eq, ite_not] at h0 ⊢
  by_cases h1 : (creds_uid_step be ex uid s).1 = 0
  · rw [if_pos h1] at h0 ⊢
    by_cases h2 : (creds_gid_step be ex gid (creds_uid_step be ex uid s).2).1 = 0
    · rw [if_pos h2] at h0 ⊢
      obtain ⟨a1, a2⟩ := creds_uid_step_post be ex uid s h1
      obtain ⟨b1, b2⟩ := creds_gid_step_post be ex gid _ h2
      obtain ⟨c1, c2⟩ := creds_groups_step_post be ngrps groups
        (creds_gid_step be ex gid (creds_uid_step be ex uid s).2).2
      rw [c1, c2, b1, b2, a1, a2]
      exact ⟨rfl, rfl⟩
    · rw [if_neg h2] at h0
      exact absurd h0 h2
  · rw [if_neg h1] at h0
    exact absurd h0 h1

/-- C2, as the code has it: when setglustercreds returns 0, the thread's
effective user id is the export's saved uid when none is supplied, the
supplied uid when that differs from the export's saved uid, and the prior
effective user id, left as it was, when the supplied uid equals the
export's saved uid; likewise for the group id.  So the ids are the ones
asked for whenever the thread's prior identity is the export's saved one. -/
theorem setglustercreds_identity (be : cred_backend) (ex : glusterfs_export)
    (uid gid : Option Nat) (ngrps : Nat) (groups : Option (List Nat)) (s : cred_state)
    (h0 : (setglustercreds be ex uid gid ngrps groups s).1 = 0) :
    (uid = none →
      (setglustercreds be ex uid gid ngrps groups s).2.creds.fsuid = ex.saveduid)
    ∧ (∀ u, uid = some u → u ≠ ex.saveduid →
      (setglustercreds be ex uid gid ngrps groups s).2.creds.fsuid = u)
    ∧ (∀ u, uid = some u → u = ex.saveduid →
      (setglustercreds be ex uid gid ngrps groups s).2.creds.fsuid = s.creds.fsuid)
    ∧ (gid = none →
      (setglustercreds be ex uid gid ngrps groups s).2.creds.fsgid = ex.savedgid)
    ∧ (∀ g, gid = some g → g ≠ ex.savedgid →
      (setglustercreds be ex uid gid ngrps groups s).2.creds.fsgid = g)
    ∧ (∀ g, gid = some g → g = ex.savedgid →
      (setglustercreds be ex uid gid ngrps groups s).2.creds.fsgid = s.creds.fsgid)
    ∧ (s.creds.fsuid = ex.saveduid →
        (setglustercreds be ex uid gid ngrps groups s).2.creds.fsuid = uid.getD ex.saveduid)
    ∧ (s.creds.fsgid = ex.savedgid →
        (setglustercreds be ex uid gid ngrps groups s).2.creds.fsgid
          = gid.getD ex.savedgid) := by
  obtain ⟨k1, k2⟩ := setglustercreds_post be ex uid gid ngrps groups s h0
  rw [k1, k2]
  refine ⟨?_, ?_, ?_, ?_, ?_, ?_, ?_, ?_⟩
  · rintro rfl; rfl
  · rintro u rfl hu; simp [id_after, hu]
  · rintro u rfl hu; simp [id_after, hu]
  · rintro rfl; rfl
  · rintro g rfl hg; simp [id_after, hg]
  · rintro g rfl hg; simp [id_after, hg]
  · intro hs
    cases uid with
    | none => rfl
    | some u =>
      simp only [Option.getD_some, id_after]
      split_ifs with hu
      · rw [hs, hu]
      · rfl
  · intro hs
    cases gid with
    | none => rfl
    | some g =>
      simp only [Option.getD_some, id_after]
      split_ifs with hg
      · rw [hs, hg]
      · rfl

/-- A run of C2: uid 1000 supplied on an export whose saved uid is 0. -/
theorem setglustercreds_identity_witness :
    (setglustercreds ok_creds sample_export (some 1000) none 0 none
        { creds := { fsuid := 5, fsgid := 6, groups := [7] }, calls := [] }).2.creds.fsuid
      = 1000 :=
  (setglustercreds_identity ok_creds sample_export (some 1000) none 0 none
    { creds := { fsuid := 5, fsgid := 6, groups := [7] }, calls := [] } (by decide)).2.1
      1000 rfl (by decide)

/-- A run against C2 as stated: the thread runs as uid 5 and gid 6, the ids
supplied are the export's saved ids 0 and 0, every call succeeds;
setglustercreds returns 0, makes no user or group call, and the thread is
still uid 5 and gid 6. -/
theorem setglustercreds_counterexample :
    (setglustercreds ok_creds sample_export (some 0) (some 0) 0 none
        { creds := { fsuid := 5, fsgid := 6, groups := [7] }, calls := [] }).1 = 0
    ∧ sample_export.saveduid = 0
    ∧ (setglustercreds ok_creds sample_export (some 0) (some 0) 0 none
        { creds := { fsuid := 5, fsgid := 6, groups := [7] }, calls := [] }).2.creds.fsuid = 5
    ∧ (setglustercreds ok_creds sample_export (some 0) (some 0) 0 none
        { creds := { fsuid := 5, fsgid := 6, groups := [7] }, calls := [] }).2.creds.fsgid = 6
    ∧ (setglustercreds ok_creds sample_export (some 0) (some 0) 0 none
        { creds := { fsuid := 5, fsgid := 6, groups := [7] }, calls := [] }).2.calls
        = [cred_call.setfsgroups 0 none] := by
  decide

/-! ### The ACL fetch and the handle constructor -/

/-- The ACL fetch writes no attribute field but the ACL reference. -/
theorem glusterfs_get_acl_frame (be : acl_backend) (acl_support : Bool) (errno : Int)
    (ex : glusterfs_export) (glhandle : Nat) (x : glusterfs_fsal_xstat_t) (a : attrlist) :
    (glusterfs_get_acl be acl_support errno ex glhandle x a).fsalattr.mask = a.mask
    ∧ (glusterfs_get_acl be acl_support errno ex glhandle x a).fsalattr.type = a.type := by
  unfold glusterfs_get_acl
  simp only
  split_ifs <;> (try split) <;> exact ⟨rfl, rfl⟩

/-- With the ACL requested and the access ACL missing, the fetch returns the
translation of the error code the failing call left. -/
theorem glusterfs_get_acl_null (be : acl_backend) (errno err : Int)
    (ex : glusterfs_export) (glhandle : Nat) (x : glusterfs_fsal_xstat_t) (a : attrlist)
    (hmask : FSAL_TEST_MASK a.mask ATTR_ACL = true)
    (hget : be.glfs_h_acl_get ex.gl_fs glhandle ACL_TYPE_ACCESS = acl_get_result.null err) :
    glusterfs_get_acl be true errno ex glhandle x a =
      { status := gluster2fsal_error err, buffxstat := { x with e_acl := none },
        fsalattr := { a with acl := none }, errno := err,
        calls := [acl_call.acl_get ex.gl_fs glhandle ACL_TYPE_ACCESS] } := by
  unfold glusterfs_get_acl
  simp only [hmask, hget, Bool.and_self, if_true, acl_get_result.ptr,
    acl_get_result.errno_after]

/-- C5, as the code has it: with ACL support on and the ACL attribute
requested, an access-ACL retrieval that fails with ENOENT makes
glusterfs_get_acl return the status gluster2fsal_error gives for ENOENT, an
error status with major NOENT and minor ENOENT, and leave no ACL in the
record; this is so for every object type, symbolic links included. -/
theorem glusterfs_get_acl_enoent (be : acl_backend) (errno : Int)
    (ex : glusterfs_export) (glhandle : Nat) (x : glusterfs_fsal_xstat_t) (a : attrlist)
    (hmask : FSAL_TEST_MASK a.mask ATTR_ACL = true)
    (hget : be.glfs_h_acl_get ex.gl_fs glhandle ACL_TYPE_ACCESS
      = acl_get_result.null ENOENT) :
    (glusterfs_get_acl be true errno ex glhandle x a).status = gluster2fsal_error ENOENT
    ∧ (glusterfs_get_acl be true errno ex glhandle x a).status
        = { major := ERR_FSAL_NOENT, minor := ENOENT }
    ∧ FSAL_IS_ERROR (glusterfs_get_acl be true errno ex glhandle x a).status = true
    ∧ (glusterfs_get_acl be true errno ex glhandle x a).fsalattr.acl = none
    ∧ (glusterfs_get_acl be true errno ex glhandle x a).fsalattr.type = a.type := by
  rw [glusterfs_get_acl_null be errno ENOENT ex glhandle x a hmask hget]
  have h1 : gluster2fsal_error ENOENT = { major := ERR_FSAL_NOENT, minor := ENOENT } := by
    decide
  have h2 : FSAL_IS_ERROR (gluster2fsal_error ENOENT) = true := by decide
  exact ⟨rfl, h1, h2, rfl, rfl⟩

/-- A run of C5 on a symbolic link whose ACL retrieval fails with ENOENT. -/
theorem glusterfs_get_acl_enoent_witness :
    (glusterfs_get_acl enoent_backend true 0 sample_export 7 zero_xstat symlink_attrs).status
      = { major := ERR_FSAL_NOENT, minor := ENOENT } :=
  (glusterfs_get_acl_enoent enoent_backend 0 sample_export 7 zero_xstat symlink_attrs
    (by decide) rfl).2.1

/-- A run against C5 as stated: for a symbolic link, with the ACL requested and
the retrieval failing with ENOENT, glusterfs_get_acl returns an error status,
not a no-error one. -/
theorem glusterfs_get_acl_symlink_counterexample :
    symlink_attrs.type = SYMBOLIC_LINK
    ∧ FSAL_TEST_MASK symlink_attrs.mask ATTR_ACL = true
    ∧ enoent_backend.glfs_h_acl_get sample_export.gl_fs 7 ACL_TYPE_ACCESS
        = acl_get_result.null ENOENT
    ∧ (glusterfs_get_acl enoent_backend true 0 sample_export 7 zero_xstat
        symlink_attrs).status.major ≠ ERR_FSAL_NO_ERROR
    ∧ FSAL_IS_ERROR (glusterfs_get_acl enoent_backend true 0 sample_export 7 zero_xstat
        symlink_attrs).status = true := by
  decide

/-- The two copies of construct_handle fill the zeroed identifier with the
first bytes of the volume identity and of the backend-local identifier. -/
theorem memcpy_identifier (vol_uuid globjhdl : List Nat)
    (hv : GLAPI_UUID_LENGTH ≤ vol_uuid.length) (hg : GFAPI_HANDLE_LENGTH ≤ globjhdl.length) :
    ((memcpy zero_handle.globjhdl 0 vol_uuid GLAPI_UUID_LENGTH).bind fun g1 =>
      memcpy g1 GLAPI_UUID_LENGTH globjhdl GFAPI_HANDLE_LENGTH)
    = some (vol_uuid.take GLAPI_UUID_LENGTH ++ globjhdl.take GFAPI_HANDLE_LENGTH) := by
  have h16 : GLAPI_UUID_LENGTH = 16 := rfl
  have h16b : GFAPI_HANDLE_LENGTH = 16 := rfl
  have hz : zero_handle.globjhdl = List.replicate 32 0 := rfl
  rw [h16] at hv ⊢
  rw [h16b] at hg ⊢
  rw [hz]
  have hl : (List.take 16 vol_uuid).length = 16 := by
    rw [List.length_take]; omega
  have e1 : memcpy (List.replicate 32 0) 0 vol_uuid 16
      = some (vol_uuid.take 16 ++ List.replicate 16 0) := by
    unfold memcpy
    rw [if_pos ⟨hv, by simp⟩]
    simp
  rw [e1, Option.some_bind]
  unfold memcpy
  rw [if_pos ⟨hg, by simp [hl]⟩]
  congr 1
  rw [List.take_append_of_le_length (by omega), List.take_of_length_le (by omega)]
  rw [List.drop_of_length_le (by simp [hl])]
  simp

/-- A source shorter than the length copied makes the copies undefined. -/
theorem memcpy_identifier_short (vol_uuid globjhdl : List Nat)
    (h : ¬ (GLAPI_UUID_LENGTH ≤ vol_uuid.length ∧ GFAPI_HANDLE_LENGTH ≤ globjhdl.length)) :
    ((memcpy zero_handle.globjhdl 0 vol_uuid GLAPI_UUID_LENGTH).bind fun g1 =>
      memcpy g1 GLAPI_UUID_LENGTH globjhdl GFAPI_HANDLE_LENGTH) = none := by
  by_cases hv : GLAPI_UUID_LENGTH ≤ vol_uuid.length
  · have hg : ¬ GFAPI_HANDLE_LENGTH ≤ globjhdl.length := fun hg => h ⟨hv, hg⟩
    cases h1 : memcpy zero_handle.globjhdl 0 vol_uuid GLAPI_UUID_LENGTH with
    | none => rfl
    | some g1 =>
      rw [Option.some_bind]
      unfold memcpy
      rw [if_neg (fun hc => hg hc.1)]
  · unfold memcpy
    rw [if_neg (fun hc => hv hc.1)]
    rfl

/-- The handle constructor in closed form. -/
theorem construct_handle_eq (cv : fsal_convert) (be : acl_backend) (acl_support : Bool)
    (alloc_ok : Bool) (errno : Int) (ex : glusterfs_export) (sb : stat)
    (glhandle : Nat) (globjhdl : List Nat) (len : Int) (vol_uuid : List Nat) :
    construct_handle cv be acl_support alloc_ok errno ex sb glhandle globjhdl len vol_uuid =
      if alloc_ok = false then
        some { ret := -1, obj := none, errno := ENOMEM, freed := false }
      else if FSAL_IS_ERROR (constructing_acl cv be acl_support errno ex sb glhandle).status
          = true
          ∧ ¬ ((constructing_attributes cv ex sb).type = SYMBOLIC_LINK
            ∧ (constructing_acl cv be acl_support errno ex sb glhandle).status.minor = ENOENT)
        then some { ret := -1, obj := none, errno := EINVAL, freed := true }
      else
        ((memcpy zero_handle.globjhdl 0 vol_uuid GLAPI_UUID_LENGTH).bind fun g1 =>
          memcpy g1 GLAPI_UUID_LENGTH globjhdl GFAPI_HANDLE_LENGTH).map fun g2 =>
          { ret := 0,
            obj := some { glhandle := glhandle, globjhdl := g2, glfd := none,
                          attributes :=
                            (constructing_acl cv be acl_support errno ex sb glhandle).fsalattr,
                          handle_type := some (constructing_attributes cv ex sb).type },
            errno := (constructing_acl cv be acl_support errno ex sb glhandle).errno,
            freed := false } := by
  have hty : (constructing_acl cv be acl_support errno ex sb glhandle).fsalattr.type
      = (constructing_attributes cv ex sb).type := by
    unfold constructing_acl
    exact (glusterfs_get_acl_frame _ _ _ _ _ _ _).2
  have hb : ∀ (A : Bool) (P Q : Prop) [Decidable P] [Decidable Q],
      ((A && !(decide P && decide Q)) = true) ↔ (A = true ∧ ¬ (P ∧ Q)) := by
    intro A P Q _ _
    by_cases hP : P <;> by_cases hQ : Q <;> simp [hP, hQ]
  unfold construct_handle
  simp only [hty]
  cases alloc_ok with
  | false => rfl
  | true =>
    simp only [Bool.not_true, Bool.false_eq_true, if_false, Bool.true_eq_false, hb]
    by_cases hc : FSAL_IS_ERROR (constructing_acl cv be acl_support errno ex sb glhandle).status
          = true
          ∧ ¬ ((constructing_attributes cv ex sb).type = SYMBOLIC_LINK
            ∧ (constructing_acl cv be acl_support errno ex sb glhandle).status.minor = ENOENT)
    · rw [if_pos hc, if_pos hc]
    · rw [if_neg hc, if_neg hc]
      cases h1 : memcpy zero_handle.globjhdl 0 vol_uuid GLAPI_UUID_LENGTH with
      | none => rfl
      | some g1 =>
        simp only [Option.some_bind]
        cases h2 : memcpy g1 GLAPI_UUID_LENGTH globjhdl GFAPI_HANDLE_LENGTH with
        | none => rfl
        | some g2 => rfl

/-- C6: whenever construct_handle returns 0, the handle it hands out has as
global identifier the first GLAPI_UUID_LENGTH bytes of the volume identity
followed at once by the first GFAPI_HANDLE_LENGTH bytes of the backend-local
identifier, the backend object reference passed in, a null open-file
reference, and the export's supported-attributes mask as attribute mask. -/
theorem construct_handle_identifier (cv : fsal_convert) (be : acl_backend)
    (acl_support alloc_ok : Bool) (errno : Int) (ex : glusterfs_export) (sb : stat)
    (glhandle : Nat) (globjhdl : List Nat) (len : Int) (vol_uuid : List Nat)
    (r : construct_result)
    (hr : construct_handle cv be acl_support alloc_ok errno ex sb glhandle globjhdl len
      vol_uuid = some r)
    (h0 : r.ret = 0) :
    ∃ hd, r.obj = some hd
      ∧ hd.globjhdl = vol_uuid.take GLAPI_UUID_LENGTH ++ globjhdl.take GFAPI_HANDLE_LENGTH
      ∧ (vol_uuid.take GLAPI_UUID_LENGTH).length = GLAPI_UUID_LENGTH
      ∧ (globjhdl.take GFAPI_HANDLE_LENGTH).length = GFAPI_HANDLE_LENGTH
      ∧ hd.glhandle = glhandle
      ∧ hd.glfd = none
      ∧ hd.attributes.mask = ex.fs_supported_attrs := by
  rw [construct_handle_eq] at hr
  split_ifs at hr with ha hc
  · cases hr; exact absurd h0 (by decide)
  · cases hr; exact absurd h0 (by decide)
  · by_cases hlen : GLAPI_UUID_LENGTH ≤ vol_uuid.length ∧ GFAPI_HANDLE_LENGTH ≤ globjhdl.length
    · rw [memcpy_identifier vol_uuid globjhdl hlen.1 hlen.2] at hr
      simp only [Option.map_some'] at hr
      cases hr
      refine ⟨_, rfl, rfl, ?_, ?_, rfl, rfl, ?_⟩
      · rw [List.length_take]; exact Nat.min_eq_left hlen.1
      · rw [List.length_take]; exact Nat.min_eq_left hlen.2
      · show (constructing_acl cv be acl_support errno ex sb glhandle).fsalattr.mask = _
        unfold constructing_acl
        rw [(glusterfs_get_acl_frame _ _ _ _ _ _ _).1]
        unfold constructing_attributes
        rw [projected_mask]
    · rw [memcpy_identifier_short vol_uuid globjhdl hlen] at hr
      cases hr

/-- C7: with identifiers long enough to copy from, construct_handle returns;
it returns 0 with a handle exactly when the allocation succeeds and the ACL
fetch gives a non-error status or fails with minor ENOENT on an object whose
projected type is symbolic link; in every other case it returns -1 with a
null handle, errno being ENOMEM after a failed allocation and EINVAL after
an ACL failure that is not tolerated. -/
theorem construct_handle_outcome (cv : fsal_convert) (be : acl_backend)
    (acl_support alloc_ok : Bool) (errno : Int) (ex : glusterfs_export) (sb : stat)
    (glhandle : Nat) (globjhdl : List Nat) (len : Int) (vol_uuid : List Nat)
    (hv : GLAPI_UUID_LENGTH ≤ vol_uuid.length) (hg : GFAPI_HANDLE_LENGTH ≤ globjhdl.length) :
    ∃ r, construct_handle cv be acl_support alloc_ok errno ex sb glhandle globjhdl len
        vol_uuid = some r
      ∧ ((r.ret = 0 ∧ r.obj ≠ none) ↔
          (alloc_ok = true
            ∧ (FSAL_IS_ERROR (constructing_acl cv be acl_support errno ex sb glhandle).status
                = false
              ∨ ((constructing_attributes cv ex sb).type = SYMBOLIC_LINK
                ∧ (constructing_acl cv be acl_support errno ex sb glhandle).status.minor
                  = ENOENT))))
      ∧ (¬ (r.ret = 0 ∧ r.obj ≠ none) → r.ret = -1 ∧ r.obj = none)
      ∧ (alloc_ok = false → r.errno = ENOMEM)
      ∧ (alloc_ok = true →
          FSAL_IS_ERROR (constructing_acl cv be acl_support errno ex sb glhandle).status = true →
          ¬ ((constructing_attributes cv ex sb).type = SYMBOLIC_LINK
            ∧ (constructing_acl cv be acl_support errno ex sb glhandle).status.minor = ENOENT) →
          r.errno = EINVAL) := by
  rw [construct_handle_eq, memcpy_identifier vol_uuid globjhdl hv hg]
  split_ifs with ha hc
  · refine ⟨_, rfl, ?_, (fun _ => ⟨rfl, rfl⟩), (fun _ => rfl), ?_⟩
    · constructor
      · rintro ⟨h, -⟩; exact absurd h (by decide)
      · rintro ⟨h, -⟩; rw [ha] at h; cases h
    · intro h; rw [ha] at h; cases h
  · refine ⟨_, rfl, ?_, (fun _ => ⟨rfl, rfl⟩), (fun h => absurd h ha), (fun _ _ _ => rfl)⟩
    constructor
    · rintro ⟨h, -⟩; exact absurd h (by decide)
    · rintro ⟨-, h | h⟩
      · rw [hc.1] at h; cases h
      · exact absurd h hc.2
  · have ht : alloc_ok = true := by
      cases alloc_ok
      · exact absurd rfl ha
      · rfl
    refine ⟨_, rfl, ?_, ?_, (fun h => absurd h ha), ?_⟩
    · constructor
      · intro _
        refine ⟨ht, ?_⟩
        by_cases he : FSAL_IS_ERROR
            (constructing_acl cv be acl_support errno ex sb glhandle).status = true
        · right
          by_contra hn
          exact hc ⟨he, hn⟩
        · left
          simpa using he
      · intro _
        exact ⟨rfl, by simp⟩
    · intro hn
      exact absurd ⟨rfl, by simp⟩ hn
    · intro _ he hn
      exact absurd ⟨he, hn⟩ hc

/-! ### The upcall thread bootstrap -/

/-- The creation loop, entered with r retries left at attempt i, makes n + 1
attempts for some n up to r: the first n fail with EAGAIN, the last one
gives the code the loop ends with, and that one is not EAGAIN unless the
retries are used up. -/
theorem create_loop_spec (env : pthread_env) :
    ∀ (r i : Nat) (tr : List up_event),
      ∃ n, n ≤ r
        ∧ (create_loop env r i tr).1 = env.create (i + n)
        ∧ create_attempts (create_loop env r i tr).2 = create_attempts tr + (n + 1)
        ∧ (∀ j, j < n → env.create (i + j) = EAGAIN)
        ∧ (n < r → env.create (i + n) ≠ EAGAIN) := by
  have hcount : ∀ tr : List up_event,
      create_attempts (tr ++ [up_event.create, up_event.sleep 1]) = create_attempts tr + 1 := by
    intro tr
    simp [create_attempts, List.count_append, List.count_cons]
  intro r
  induction r with
  | zero =>
    intro i tr
    refine ⟨0, le_refl 0, ?_, ?_, (fun j hj => absurd hj (Nat.not_lt_zero j)),
      (fun h => absurd h (Nat.lt_irrefl 0))⟩
    · unfold create_loop
      split_ifs <;> rfl
    · unfold create_loop
      split_ifs <;> exact hcount tr
  | succ r ih =>
    intro i tr
    by_cases he : env.create i = EAGAIN
    · have hne : env.create i ≠ 0 := by rw [he]; decide
      obtain ⟨n, hn, h1, h2, h3, h4⟩ := ih (i + 1) (tr ++ [up_event.create, up_event.sleep 1])
      have hstep : create_loop env (r + 1) i tr
          = create_loop env r (i + 1) (tr ++ [up_event.create, up_event.sleep 1]) := by
        rw [create_loop]
        rw [if_pos ⟨hne, he⟩]
      refine ⟨n + 1, by omega, ?_, ?_, ?_, ?_⟩
      · rw [hstep, h1]; congr 1; omega
      · rw [hstep, h2, hcount]; omega
      · intro j hj
        cases j with
        | zero => exact he
        | succ j =>
          have := h3 j (by omega)
          rw [show i + (j + 1) = i + 1 + j by omega]
          exact this
      · intro hlt
        have := h4 (by omega)
        rw [show i + (n + 1) = i + 1 + n by omega]
        exact this
    · have hstep : create_loop env (r + 1) i tr
          = (env.create i, tr ++ [up_event.create, up_event.sleep 1]) := by
        rw [create_loop]
        rw [if_neg (fun h => he h.2)]
      refine ⟨0, by omega, ?_, ?_, (fun j hj => absurd hj (Nat.not_lt_zero j)), (fun _ => he)⟩
      · rw [hstep]; rfl
      · rw [hstep]; exact hcount tr

/-- With the attribute calls succeeding, initiate_up_thread makes n + 1
creation attempts for some n up to 10: the first n fail with EAGAIN, the
last one is not EAGAIN unless n is 10, and the return value is 0 when the
last attempt succeeds and -1 when it does not. -/
theorem initiate_up_thread_attempts (env : pthread_env)
    (h1 : env.attr_init = 0) (h2 : env.attr_setscope = 0)
    (h3 : env.attr_setdetachstate = 0) (h4 : env.attr_setstacksize = 0) :
    ∃ n, n ≤ 10
      ∧ create_attempts (initiate_up_thread env).trace = n + 1
      ∧ (∀ j, j < n → env.create j = EAGAIN)
      ∧ (n < 10 → env.create n ≠ EAGAIN)
      ∧ (env.create n = 0 → (initiate_up_thread env).retval = 0)
      ∧ (env.create n ≠ 0 → (initiate_up_thread env).retval = -1) := by
  obtain ⟨n, hn, e1, e2, e3, e4⟩ := create_loop_spec env 10 0
    [up_event.attr_init, up_event.attr_setscope, up_event.attr_setdetachstate,
      up_event.attr_setstacksize 2116488]
  have hcnt : ∀ tr : List up_event,
      create_attempts (tr ++ [up_event.attr_destroy]) = create_attempts tr := by
    intro tr
    simp [create_attempts, List.count_append, List.count_cons]
  have h0 : create_attempts [up_event.attr_init, up_event.attr_setscope,
      up_event.attr_setdetachstate, up_event.attr_setstacksize 2116488] = 0 := by
    decide
  simp only [Nat.zero_add] at e1 e3 e4
  rw [h0, Nat.zero_add] at e2
  refine ⟨n, hn, ?_, e3, e4, ?_, ?_⟩
  · unfold initiate_up_thread
    simp only [h1, h2, h3, h4, ne_eq, not_true_eq_false, if_false]
    split_ifs <;> simp only [hcnt, e2]
  · intro hz
    unfold initiate_up_thread
    simp only [h1, h2, h3, h4, ne_eq, not_true_eq_false, if_false, e1, hz]
  · intro hz
    unfold initiate_up_thread
    simp only [h1, h2, h3, h4, ne_eq, not_true_eq_false, if_false, e1, hz, not_false_eq_true,
      if_true]

/-- C9: with the thread-attribute setup succeeding, initiate_up_thread makes at
least one and at most 11 creation attempts, every attempt but the last has
failed with EAGAIN; it returns 0 exactly when some attempt among the first
11 succeeds with every earlier one failing EAGAIN, and -1 otherwise; 11
EAGAIN failures in a row give -1 after 11 attempts; a failure other than
EAGAIN gives -1 with that attempt the last. -/
theorem initiate_up_thread_retry (env : pthread_env)
    (h1 : env.attr_init = 0) (h2 : env.attr_setscope = 0)
    (h3 : env.attr_setdetachstate = 0) (h4 : env.attr_setstacksize = 0) :
    1 ≤ create_attempts (initiate_up_thread env).trace
    ∧ create_attempts (initiate_up_thread env).trace ≤ 1 + 10
    ∧ (∀ i, i + 1 < create_attempts (initiate_up_thread env).trace → env.create i = EAGAIN)
    ∧ ((initiate_up_thread env).retval = 0 ↔
        ∃ i, i ≤ 10 ∧ env.create i = 0 ∧ ∀ j, j < i → env.create j = EAGAIN)
    ∧ ((initiate_up_thread env).retval ≠ 0 → (initiate_up_thread env).retval = -1)
    ∧ ((∀ i, i ≤ 10 → env.create i = EAGAIN) →
        (initiate_up_thread env).retval = -1
        ∧ create_attempts (initiate_up_thread env).trace = 11)
    ∧ (∀ i, i ≤ 10 → env.create i ≠ 0 → env.create i ≠ EAGAIN →
        (∀ j, j < i → env.create j = EAGAIN) →
        (initiate_up_thread env).retval = -1
        ∧ create_attempts (initiate_up_thread env).trace = i + 1)
    ∧ (∀ i, i ≤ 10 → env.create i = 0 → (∀ j, j < i → env.create j = EAGAIN) →
        create_attempts (initiate_up_thread env).trace = i + 1) := by
  obtain ⟨n, hn, hc, hpre, hlast, hok, hbad⟩ := initiate_up_thread_attempts env h1 h2 h3 h4
  have hE : EAGAIN ≠ 0 := by decide
  -- the last attempt is the first one that does not fail with EAGAIN
  have huniq : ∀ i, i ≤ 10 → env.create i ≠ EAGAIN →
      (∀ j, j < i → env.create j = EAGAIN) → i = n := by
    intro i hi hne hall
    rcases Nat.lt_trichotomy i n with hlt | heq | hgt
    · exact absurd (hpre i hlt) hne
    · exact heq
    · exact absurd (hall n hgt) (hlast (by omega))
  refine ⟨by omega, by omega, ?_, ?_, ?_, ?_, ?_, ?_⟩
  · intro i hi
    exact hpre i (by omega)
  · constructor
    · intro hr
      by_cases hz : env.create n = 0
      · exact ⟨n, hn, hz, hpre⟩
      · have := hbad hz
        rw [this] at hr
        exact absurd hr (by decide)
    · rintro ⟨i, hi, hz, hall⟩
      have hin : i = n := huniq i hi (by rw [hz]; exact fun h => hE h.symm) hall
      subst hin
      exact hok hz
  · intro hr
    by_cases hz : env.create n = 0
    · exact absurd (hok hz) hr
    · exact hbad hz
  · intro hall
    have hn10 : n = 10 := by
      by_contra hne
      exact hlast (by omega) (hall n hn)
    have hz : env.create n ≠ 0 := by rw [hall n hn]; exact hE
    exact ⟨hbad hz, by rw [hc, hn10]⟩
  · intro i hi hz hne hall
    have hin : i = n := huniq i hi hne hall
    subst hin
    exact ⟨hbad hz, hc⟩
  · intro i hi hz hall
    have hin : i = n := huniq i hi (by rw [hz]; exact fun h => hE h.symm) hall
    subst hin
    exact hc

/-- A run of C9: EAGAIN, then success, returns 0 after two attempts. -/
theorem initiate_up_thread_retry_witness :
    (initiate_up_thread eagain_then_ok).retval = 0
    ∧ create_attempts (initiate_up_thread eagain_then_ok).trace = 2 :=
  ⟨(initiate_up_thread_retry eagain_then_ok rfl rfl rfl rfl).2.2.2.1.mpr
      ⟨1, by decide, by decide, by decide⟩,
   (initiate_up_thread_retry eagain_then_ok rfl rfl rfl rfl).2.2.2.2.2.2.2
      1 (by decide) (by decide) (by decide)⟩

/-! ### Runs on sample inputs -/

/-- A run of C10 on equal modify-time and change-time. -/
theorem stat2fsal_attributes_chgtime_witness :
    FSAL_TEST_MASK ATTR_CHGTIME ATTR_CHGTIME = true
    ∧ symlink_stat.st_mtime = symlink_stat.st_ctime
    ∧ (stat2fsal_attributes std_convert symlink_stat
        { zero_attrlist with mask := ATTR_CHGTIME }).chgtime.tv_sec = 1700000000
    ∧ (stat2fsal_attributes std_convert symlink_stat
        { zero_attrlist with mask := ATTR_CHGTIME }).chgtime.tv_nsec = 0
    ∧ (stat2fsal_attributes std_convert symlink_stat
        { zero_attrlist with mask := ATTR_CHGTIME }).change = 1700000000 :=
  ⟨by decide, by decide,
   (stat2fsal_attributes_chgtime std_convert symlink_stat
      { zero_attrlist with mask := ATTR_CHGTIME } (by decide)).1.trans (by decide),
   (stat2fsal_attributes_chgtime std_convert symlink_stat
      { zero_attrlist with mask := ATTR_CHGTIME } (by decide)).2.1,
   (stat2fsal_attributes_chgtime std_convert symlink_stat
      { zero_attrlist with mask := ATTR_CHGTIME } (by decide)).2.2.trans (by decide)⟩

/-- A run of C6 with ACL support off: the identifier is the 16 bytes of the
volume identity followed by the 16 bytes of the backend-local identifier. -/
theorem construct_handle_identifier_witness :
    ∃ r hd, construct_handle std_convert enoent_backend false true 0 sample_export
        symlink_stat 7 (List.range 16) 16 (List.replicate 16 9) = some r
      ∧ r.ret = 0
      ∧ r.obj = some hd
      ∧ hd.globjhdl = List.replicate 16 9 ++ List.range 16
      ∧ hd.glhandle = 7
      ∧ hd.glfd = none
      ∧ hd.attributes.mask = ATTR_TYPE ||| ATTR_ACL := by
  have hret : (construct_handle std_convert enoent_backend false true 0 sample_export
      symlink_stat 7 (List.range 16) 16 (List.replicate 16 9)).map (fun r => r.ret)
      = some 0 := by decide
  cases hr : construct_handle std_convert enoent_backend false true 0 sample_export
      symlink_stat 7 (List.range 16) 16 (List.replicate 16 9) with
  | none => rw [hr] at hret; cases hret
  | some r =>
    rw [hr] at hret
    have h0 : r.ret = 0 := by simpa using hret
    obtain ⟨hd, ho, hg, -, -, hh, hf, hm⟩ :=
      construct_handle_identifier std_convert enoent_backend false true 0 sample_export
        symlink_stat 7 (List.range 16) 16 (List.replicate 16 9) r hr h0
    exact ⟨r, hd, rfl, h0, ho, hg.trans (by decide), hh, hf, hm⟩

/-- A run of C7 on a dead symbolic link: the ACL fetch fails with ENOENT and the
handle is built all the same. -/
theorem construct_handle_outcome_witness :
    ∃ r, construct_handle std_convert enoent_backend true true 0 sample_export
        symlink_stat 7 (List.range 16) 16 (List.replicate 16 9) = some r
      ∧ r.ret = 0 ∧ r.obj ≠ none := by
  obtain ⟨r, hr, hiff, -⟩ :=
    construct_handle_outcome std_convert enoent_backend true true 0 sample_export
      symlink_stat 7 (List.range 16) 16 (List.replicate 16 9) (by decide) (by decide)
  exact ⟨r, hr, hiff.mpr ⟨rfl, Or.inr ⟨by decide, by decide⟩⟩⟩

/-- A run of C8 on the option string of the source comment, key foo. -/
theorem fs_specific_has_first_match_witness :
    ∃ r, fs_specific_has true (some "foo=baz,enable_A".toList) "foo".toList
        (some (List.replicate 8 'x')) (some 8) = some r
      ∧ r.ret = true
      ∧ r.val = some ("baz".toList ++ List.replicate 5 NUL)
      ∧ r.max_val_bytes = some 4 := by
  have hfm : first_match "foo=baz,enable_A".toList "foo".toList = some "foo=baz".toList := by
    decide
  obtain ⟨r, hr, hiff, -, hfirst⟩ :=
    (fs_specific_has_first_match "foo=baz,enable_A".toList "foo".toList
      (some (List.replicate 8 'x')) (some 8)
      (by
        intro buf hb
        cases hb
        exact ⟨8, rfl, by decide⟩)
      (by
        intro t ht hv
        rw [hfm] at ht
        cases ht
        exact absurd hv (by decide))).2.2.2
  obtain ⟨hval, hmax, -, -⟩ := hfirst _ hfm
  obtain ⟨v, hv, hrv⟩ := hval _ 8 rfl rfl
  obtain ⟨v2, hv2, hrm, -⟩ := hmax 8 rfl
  have e1 : v = "baz".toList := by
    have : token_value "foo=baz".toList = some "baz".toList := by decide
    rw [this] at hv
    exact (Option.some.inj hv).symm
  have e2 : v2 = "baz".toList := by
    have : token_value "foo=baz".toList = some "baz".toList := by decide
    rw [this] at hv2
    exact (Option.some.inj hv2).symm
  subst e1
  subst e2
  refine ⟨r, hr, hiff.mpr ⟨by decide, "foo=baz".toList, by decide, by decide⟩, ?_, ?_⟩
  · rw [hrv]; decide
  · rw [hrm]; decide

/-! ### The value copy of the option parser -/

/-- A capacity that fits an int converts to size_t unchanged. -/
theorem size_t_of_int_natCast (n : Nat) (hn : n < 2 ^ 31) : size_t_of_int (n : Int) = n := by
  unfold size_t_of_int
  have h : ((n : Int)) % 2 ^ 64 = (n : Int) := by
    apply Int.emod_eq_of_lt
    · exact Int.natCast_nonneg n
    · have : (n : Int) < 2 ^ 31 := by exact_mod_cast hn
      omega
  rw [h]
  exact Int.toNat_natCast n

/-- The bytes strncpy leaves: the head of the source, the unwritten tail of the
buffer, and the length of the buffer. -/
theorem strncpy_bytes (buf v : List Char) (n : Nat) (hn : n ≤ buf.length) :
    (v.take n ++ List.replicate (n - v.length) NUL ++ buf.drop n).length = buf.length
    ∧ (v.take n ++ List.replicate (n - v.length) NUL ++ buf.drop n).take (min n v.length)
        = v.take (min n v.length)
    ∧ (v.take n ++ List.replicate (n - v.length) NUL ++ buf.drop n).drop n = buf.drop n := by
  have hl : (v.take n).length = min n v.length := List.length_take n v
  refine ⟨?_, ?_, ?_⟩
  · simp only [List.length_append, List.length_take, List.length_replicate, List.length_drop]
    omega
  · rw [List.append_assoc, List.take_append_of_le_length (by rw [hl]), List.take_take]
    congr 1
    omega
  · have hlen : (v.take n ++ List.replicate (n - v.length) NUL).length = n := by
      simp only [List.length_append, List.length_take, List.length_replicate]
      omega
    exact List.drop_left' hlen

/-- C11, as the code has it: when the first token with the target key is key=v
and the private copy is allocated, a call that supplies a value buffer
together with a size parameter holding n, n within the buffer's capacity,
returns true; the buffer then holds the first min(n, length of v) bytes of
v, NUL bytes after them up to index n, and its old bytes from index n on;
the size parameter holds length of v plus 1, stored as an int, whatever n
is.  When the private copy cannot be allocated the call returns false and
writes nothing. -/
theorem fs_specific_has_copy (s key t v buf : List Char) (n : Nat)
    (hfirst : first_match s key = some t) (hval : token_value t = some v)
    (hcap : n ≤ buf.length) (hint : n < 2 ^ 31) :
    fs_specific_has true (some s) key (some buf) (some (n : Int))
        = some { ret := true,
                 val := some (v.take n ++ List.replicate (n - v.length) NUL ++ buf.drop n),
                 max_val_bytes := some (int_of_size_t (v.length + 1)) }
    ∧ (v.take n ++ List.replicate (n - v.length) NUL ++ buf.drop n).length = buf.length
    ∧ (v.take n ++ List.replicate (n - v.length) NUL ++ buf.drop n).take (min n v.length)
        = v.take (min n v.length)
    ∧ (v.take n ++ List.replicate (n - v.length) NUL ++ buf.drop n).drop n = buf.drop n
    ∧ (v.length + 1 < 2 ^ 31 → int_of_size_t (v.length + 1) = v.length + 1)
    ∧ fs_specific_has false (some s) key (some buf) (some (n : Int))
        = some { ret := false, val := some buf, max_val_bytes := some (n : Int) } := by
  obtain ⟨b1, b2, b3⟩ := strncpy_bytes buf v n hcap
  refine ⟨?_, b1, b2, b3, ?_, ?_⟩
  · rw [fs_specific_has_eq, hfirst]
    simp only [hval, fs_specific_found, strncpy, size_t_of_int_natCast n hint, if_pos hcap]
    rfl
  · intro hv
    unfold int_of_size_t
    have : ((v.length + 1 : ℕ) : ℤ) < 2 ^ 31 := by exact_mod_cast hv
    push_cast at this ⊢
    omega
  · cases s <;> rfl

/-- A run of C11: the value baz copied into a buffer of 2 bytes is cut to ba,
and the size parameter reports 4. -/
theorem fs_specific_has_copy_witness :
    fs_specific_has true (some "foo=baz,enable_A".toList) "foo".toList
        (some ['x', 'x', 'y', 'z']) (some 2)
      = some { ret := true, val := some ['b', 'a', 'y', 'z'], max_val_bytes := some 4 } :=
  (fs_specific_has_copy "foo=baz,enable_A".toList "foo".toList "foo=baz".toList "baz".toList
    ['x', 'x', 'y', 'z'] 2 (by decide) (by decide) (by decide) (by decide)).1.trans
    (by decide)

/-- Two runs against C11 as stated, both with a value buffer supplied and the
token foo=baz matching: with the private copy not allocated nothing is
copied and the size parameter keeps its 8; with no size parameter there is
no result at all. -/
theorem fs_specific_has_copy_counterexample :
    first_match "foo=baz".toList "foo".toList = some "foo=baz".toList
    ∧ token_value "foo=baz".toList = some "baz".toList
    ∧ fs_specific_has false (some "foo=baz".toList) "foo".toList
        (some (List.replicate 8 'x')) (some 8)
      = some { ret := false, val := some (List.replicate 8 'x'), max_val_bytes := some 8 }
    ∧ fs_specific_has true (some "foo=baz".toList) "foo".toList
        (some (List.replicate 8 'x')) none = none := by
  decide

/-! ### The calls of the credential switch -/

/-- The user step returns the code of its call and records that call. -/
theorem creds_uid_step_calls (be : cred_backend) (ex : glusterfs_export)
    (uid : Option Nat) (s : cred_state) :
    (creds_uid_step be ex uid s).1 = step_rc be (uid_call ex uid)
    ∧ (creds_uid_step be ex uid s).2.calls = s.calls ++ uid_call ex uid := by
  unfold creds_uid_step uid_call
  cases uid with
  | none => exact ⟨rfl, rfl⟩
  | some u =>
    simp only
    split_ifs
    · exact ⟨rfl, rfl⟩
    · exact ⟨rfl, (List.append_nil _).symm⟩

/-- The group step returns the code of its call and records that call. -/
theorem creds_gid_step_calls (be : cred_backend) (ex : glusterfs_export)
    (gid : Option Nat) (s : cred_state) :
    (creds_gid_step be ex gid s).1 = step_rc be (gid_call ex gid)
    ∧ (creds_gid_step be ex gid s).2.calls = s.calls ++ gid_call ex gid := by
  unfold creds_gid_step gid_call
  cases gid with
  | none => exact ⟨rfl, rfl⟩
  | some g =>
    simp only
    split_ifs
    · exact ⟨rfl, rfl⟩
    · exact ⟨rfl, (List.append_nil _).symm⟩

/-- The supplementary groups step returns the code of its call and records
that call. -/
theorem creds_groups_step_calls (be : cred_backend) (ngrps : Nat)
    (groups : Option (List Nat)) (s : cred_state) :
    (creds_groups_step be ngrps groups s).1 = call_rc be (groups_call ngrps groups)
    ∧ (creds_groups_step be ngrps groups s).2.calls = s.calls ++ [groups_call ngrps groups] := by
  unfold creds_groups_step groups_call
  split_ifs <;> exact ⟨rfl, rfl⟩

/-- The return code and the calls of setglustercreds in closed form. -/
theorem setglustercreds_calls (be : cred_backend) (ex : glusterfs_export)
    (uid gid : Option Nat) (ngrps : Nat) (groups : Option (List Nat)) (s : cred_state) :
    ((setglustercreds be ex uid gid ngrps groups s).1,
      (setglustercreds be ex uid gid ngrps groups s).2.calls) =
      if step_rc be (uid_call ex uid) ≠ 0 then
        (step_rc be (uid_call ex uid), s.calls ++ uid_call ex uid)
      else if step_rc be (gid_call ex gid) ≠ 0 then
        (step_rc be (gid_call ex gid), s.calls ++ (uid_call ex uid ++ gid_call ex gid))
      else
        (call_rc be (groups_call ngrps groups),
          s.calls ++ (uid_call ex uid ++ gid_call ex gid ++ [groups_call ngrps groups])) := by
  obtain ⟨a1, a2⟩ := creds_uid_step_calls be ex uid s
  obtain ⟨b1, b2⟩ := creds_gid_step_calls be ex gid (creds_uid_step be ex uid s).2
  obtain ⟨c1, c2⟩ := creds_groups_step_calls be ngrps groups
    (creds_gid_step be ex gid (creds_uid_step be ex uid s).2).2
  unfold setglustercreds
  simp only [a1, b1]
  split_ifs with h1 h2
  · rw [a1, a2]
  · rw [b1, b2, a2, List.append_assoc]
  · rw [c1, c2, b2, a2]
    simp only [List.append_assoc]

/-- A user call list holds at most the one user call. -/
theorem uid_call_cases (ex : glusterfs_export) (uid : Option Nat) :
    uid_call ex uid = [] ∨ ∃ u, uid_call ex uid = [cred_call.setfsuid u] := by
  unfold uid_call
  cases uid with
  | none => exact Or.inr ⟨_, rfl⟩
  | some u =>
    simp only
    split_ifs
    · exact Or.inr ⟨_, rfl⟩
    · exact Or.inl rfl

/-- A group call list holds at most the one group call. -/
theorem gid_call_cases (ex : glusterfs_export) (gid : Option Nat) :
    gid_call ex gid = [] ∨ ∃ g, gid_call ex gid = [cred_call.setfsgid g] := by
  unfold gid_call
  cases gid with
  | none => exact Or.inr ⟨_, rfl⟩
  | some g =>
    simp only
    split_ifs
    · exact Or.inr ⟨_, rfl⟩
    · exact Or.inl rfl

/-- The supplementary groups call is a supplementary groups call. -/
theorem groups_call_cases (ngrps : Nat) (groups : Option (List Nat)) :
    ∃ n l, groups_call ngrps groups = cred_call.setfsgroups n l := by
  unfold groups_call
  split_ifs
  · exact ⟨_, _, rfl⟩
  · exact ⟨_, _, rfl⟩

/-- C14: the identity-change calls of setglustercreds come in the order user,
group, supplementary groups, each at most once; a call that returns a
nonzero code is the last call made and its code is the return value; the
return value is 0 exactly when every call made returned 0. -/
theorem setglustercreds_order (be : cred_backend) (ex : glusterfs_export)
    (uid gid : Option Nat) (ngrps : Nat) (groups : Option (List Nat)) (s : cred_state) :
    ∃ new, (setglustercreds be ex uid gid ngrps groups s).2.calls = s.calls ++ new
      ∧ new ≠ []
      ∧ (new.map call_rank).Pairwise (· < ·)
      ∧ (∀ c, c ∈ new → call_rc be c ≠ 0 →
          new.getLast? = some c
          ∧ (setglustercreds be ex uid gid ngrps groups s).1 = call_rc be c)
      ∧ ((setglustercreds be ex uid gid ngrps groups s).1 = 0 ↔
          ∀ c, c ∈ new → call_rc be c = 0) := by
  have h := setglustercreds_calls be ex uid gid ngrps groups s
  obtain ⟨n, l, hg⟩ := groups_call_cases ngrps groups
  by_cases hA : step_rc be (uid_call ex uid) = 0 <;>
    by_cases hB : step_rc be (gid_call ex gid) = 0 <;>
    simp only [hA, hB, ne_eq, not_true_eq_false, not_false_eq_true, if_true, if_false] at h <;>
    obtain ⟨h1, h2⟩ := Prod.mk.inj h <;>
    refine ⟨_, h2, ?_, ?_, ?_, ?_⟩ <;>
    rcases uid_call_cases ex uid with hu | ⟨u, hu⟩ <;>
    rcases gid_call_cases ex gid with hgi | ⟨g, hgi⟩ <;>
    simp_all [step_rc, call_rc, call_rank]

/-- C12, as the code has it: setglustercreds makes no user call when the uid
supplied is the export's saved uid; when no uid is supplied its first call
is glfs_setfsuid of the saved uid, and when a uid other than the saved one
is supplied its first call is glfs_setfsuid of that uid, whatever the
thread's active user id is.  Likewise it makes no group call when the gid
supplied is the export's saved gid, and when the user step has not failed
it calls glfs_setfsgid of the saved gid if none is supplied and of the
supplied gid if that is not the saved one. -/
theorem setglustercreds_redundant (be : cred_backend) (ex : glusterfs_export)
    (uid gid : Option Nat) (ngrps : Nat) (groups : Option (List Nat)) (s : cred_state) :
    ∃ new, (setglustercreds be ex uid gid ngrps groups s).2.calls = s.calls ++ new
      ∧ (uid = some ex.saveduid → ∀ u, cred_call.setfsuid u ∉ new)
      ∧ (uid = none → new.head? = some (cred_call.setfsuid ex.saveduid))
      ∧ (∀ u, uid = some u → u ≠ ex.saveduid → new.head? = some (cred_call.setfsuid u))
      ∧ (gid = some ex.savedgid → ∀ g, cred_call.setfsgid g ∉ new)
      ∧ (step_rc be (uid_call ex uid) = 0 →
          (gid = none → cred_call.setfsgid ex.savedgid ∈ new)
          ∧ (∀ g, gid = some g → g ≠ ex.savedgid → cred_call.setfsgid g ∈ new)) := by
  have h := setglustercreds_calls be ex uid gid ngrps groups s
  obtain ⟨n, l, hg⟩ := groups_call_cases ngrps groups
  by_cases hA : step_rc be (uid_call ex uid) = 0 <;>
    by_cases hB : step_rc be (gid_call ex gid) = 0 <;>
    simp only [hA, hB, ne_eq, not_true_eq_false, not_false_eq_true, if_true, if_false] at h <;>
    obtain ⟨h1, h2⟩ := Prod.mk.inj h <;>
    refine ⟨_, h2, ?_, ?_, ?_, ?_, ?_⟩ <;>
    cases uid <;> cases gid <;>
    simp_all [uid_call, gid_call, step_rc, call_rc]

/-- Two runs against C12 as stated, every backend call succeeding: with no uid
supplied and the thread already at the export's saved uid 0, and with uid
1000 supplied and the thread already at uid 1000, glfs_setfsuid is called
all the same. -/
theorem setglustercreds_redundant_counterexample :
    sample_export.saveduid = 0
    ∧ (setglustercreds ok_creds sample_export none none 0 none
        { creds := { fsuid := 0, fsgid := 0, groups := [] }, calls := [] }).2.calls
      = [cred_call.setfsuid 0, cred_call.setfsgid 0, cred_call.setfsgroups 0 none]
    ∧ (setglustercreds ok_creds sample_export (some 1000) (some 0) 0 none
        { creds := { fsuid := 1000, fsgid := 0, groups := [] }, calls := [] }).2.calls
      = [cred_call.setfsuid 1000, cred_call.setfsgroups 0 none] := by
  decide

/-- C13: with no uid, no gid and no supplementary groups, and the user and
group calls succeeding, the calls of setglustercreds are glfs_setfsuid of
the saved uid, glfs_setfsgid of the saved gid and glfs_setfsgroups(0, null),
in that order and no other.  In every call whose user and group steps have
not failed, the calls end with the groups call: glfs_setfsgroups of the
count and list supplied when the count is nonzero and the list non-null,
and glfs_setfsgroups(0, null) otherwise; when that call succeeds the
thread's supplementary groups are the list supplied in the first case and
empty in the second. -/
theorem setglustercreds_defaults (be : cred_backend) (ex : glusterfs_export)
    (s : cred_state) :
    (be.setfsuid_rc ex.saveduid = 0 → be.setfsgid_rc ex.savedgid = 0 →
      ∀ (ngrps : Nat) (groups : Option (List Nat)), (ngrps = 0 ∨ groups = none) →
        (setglustercreds be ex none none ngrps groups s).2.calls
          = s.calls ++ [cred_call.setfsuid ex.saveduid, cred_call.setfsgid ex.savedgid,
              cred_call.setfsgroups 0 none])
    ∧ (∀ (uid gid : Option Nat) (ngrps : Nat) (groups : Option (List Nat)),
        step_rc be (uid_call ex uid) = 0 → step_rc be (gid_call ex gid) = 0 →
          (setglustercreds be ex uid gid ngrps groups s).2.calls
            = s.calls ++ (uid_call ex uid ++ gid_call ex gid ++
                [if ngrps ≠ 0 ∧ groups ≠ none then cred_call.setfsgroups ngrps groups
                 else cred_call.setfsgroups 0 none])
          ∧ (setglustercreds be ex uid gid ngrps groups s).1
            = (if ngrps ≠ 0 ∧ groups ≠ none then be.setfsgroups_rc ngrps groups
               else be.setfsgroups_rc 0 none)
          ∧ ((setglustercreds be ex uid gid ngrps groups s).1 = 0 →
              (setglustercreds be ex uid gid ngrps groups s).2.creds.groups
                = (if ngrps ≠ 0 ∧ groups ≠ none then (groups.getD []).take ngrps
                   else []))) := by
  have hgc : ∀ (ngrps : Nat) (groups : Option (List Nat)),
      groups_call ngrps groups =
        if ngrps ≠ 0 ∧ groups ≠ none then cred_call.setfsgroups ngrps groups
        else cred_call.setfsgroups 0 none := by
    intro ngrps groups
    unfold groups_call
    cases groups <;> simp
  have hreach : ∀ (uid gid : Option Nat) (ngrps : Nat) (groups : Option (List Nat)),
      step_rc be (uid_call ex uid) = 0 → step_rc be (gid_call ex gid) = 0 →
        (setglustercreds be ex uid gid ngrps groups s).2.calls
          = s.calls ++ (uid_call ex uid ++ gid_call ex gid ++ [groups_call ngrps groups])
        ∧ (setglustercreds be ex uid gid ngrps groups s).1
          = call_rc be (groups_call ngrps groups) := by
    intro uid gid ngrps groups hA hB
    have h := setglustercreds_calls be ex uid gid ngrps groups s
    simp only [hA, hB, ne_eq, not_true_eq_false, if_false] at h
    obtain ⟨h1, h2⟩ := Prod.mk.inj h
    exact ⟨h2, h1⟩
  refine ⟨?_, ?_⟩
  · intro hu hg ngrps groups hnone
    have h := (hreach none none ngrps groups (by simpa [uid_call, step_rc, call_rc] using hu)
      (by simpa [gid_call, step_rc, call_rc] using hg)).1
    rw [h, hgc]
    have hc : ¬ (ngrps ≠ 0 ∧ groups ≠ none) := by
      rcases hnone with h0 | h0
      · exact fun hh => hh.1 h0
      · exact fun hh => hh.2 h0
    rw [if_neg hc]
    rfl
  · intro uid gid ngrps groups hA hB
    obtain ⟨h2, h1⟩ := hreach uid gid ngrps groups hA hB
    refine ⟨by rw [h2, hgc], ?_, ?_⟩
    · rw [h1, hgc]
      split_ifs <;> rfl
    · intro h0
      have hA' : (creds_uid_step be ex uid s).1 = 0 := by
        rw [(creds_uid_step_calls be ex uid s).1]; exact hA
      have hB' : (creds_gid_step be ex gid (creds_uid_step be ex uid s).2).1 = 0 := by
        rw [(creds_gid_step_calls be ex gid _).1]; exact hB
      have hrc : (creds_groups_step be ngrps groups
          (creds_gid_step be ex gid (creds_uid_step be ex uid s).2).2).1 = 0 := by
        have := h0
        unfold setglustercreds at this
        simpa only [hA', hB', ne_eq, not_true_eq_false, if_false] using this
      unfold setglustercreds
      simp only [hA', hB', ne_eq, not_true_eq_false, if_false]
      unfold creds_groups_step glfs_setfsgroups at hrc ⊢
      cases groups with
      | none =>
        simp only [Option.isSome_none, Bool.false_eq_true, and_false, if_false, ne_eq,
          not_true_eq_false] at hrc ⊢
        rw [if_pos hrc]
        simp
      | some l =>
        by_cases hn : ngrps = 0
        · simp only [hn, ne_eq, not_true_eq_false, false_and, if_false] at hrc ⊢
          rw [if_pos hrc]
          simp
        · simp only [hn, ne_eq, not_false_eq_true, Option.isSome_some, and_self, if_true,
            reduceCtorEq] at hrc ⊢
          rw [if_pos hrc]

/-- A run of C13: no identity supplied on the sample export, every call
succeeding. -/
theorem setglustercreds_defaults_witness :
    (setglustercreds ok_creds sample_export none none 0 none
        { creds := { fsuid := 5, fsgid := 6, groups := [7] }, calls := [] }).2.calls
      = [cred_call.setfsuid 0, cred_call.setfsgid 0, cred_call.setfsgroups 0 none] :=
  (setglustercreds_defaults ok_creds sample_export
    { creds := { fsuid := 5, fsgid := 6, groups := [7] }, calls := [] }).1 rfl rfl 0 none
    (Or.inl rfl)

/-! ### The ACL store, the ACL processing and the ACL fetch -/

/-- C15: glusterfs_set_acl first attempts the access ACL write; it attempts the
inherited ACL write exactly when the access write did not return a negative
result, the object is a directory and an inherited ACL is present; it
returns the status (invalid-argument, minor 0) exactly when an attempted
write returned a negative result, whatever else the backend reported, and
the no-error status otherwise. -/
theorem glusterfs_set_acl_status (be : acl_store_backend) (ex : glusterfs_export)
    (glhandle : Nat) (x : glusterfs_fsal_xstat_t) :
    (glusterfs_set_acl be ex glhandle x).calls.head?
        = some (store_call.acl_set ex.gl_fs glhandle ACL_TYPE_ACCESS x.e_acl)
    ∧ ((∃ a, store_call.acl_set ex.gl_fs glhandle ACL_TYPE_DEFAULT a
          ∈ (glusterfs_set_acl be ex glhandle x).calls) ↔
        (¬ be.glfs_h_acl_set ex.gl_fs glhandle ACL_TYPE_ACCESS x.e_acl < 0
          ∧ x.is_dir = true ∧ x.i_acl ≠ none))
    ∧ (glusterfs_set_acl be ex glhandle x).calls
        = store_call.acl_set ex.gl_fs glhandle ACL_TYPE_ACCESS x.e_acl ::
          (if ¬ be.glfs_h_acl_set ex.gl_fs glhandle ACL_TYPE_ACCESS x.e_acl < 0
              ∧ x.is_dir = true ∧ x.i_acl ≠ none
           then [store_call.acl_set ex.gl_fs glhandle ACL_TYPE_DEFAULT x.i_acl] else [])
    ∧ ((glusterfs_set_acl be ex glhandle x).status
          = { major := ERR_FSAL_INVAL, minor := 0 } ↔
        ∃ t a, store_call.acl_set ex.gl_fs glhandle t a
            ∈ (glusterfs_set_acl be ex glhandle x).calls
          ∧ be.glfs_h_acl_set ex.gl_fs glhandle t a < 0)
    ∧ ((glusterfs_set_acl be ex glhandle x).status ≠ { major := ERR_FSAL_INVAL, minor := 0 } →
        (glusterfs_set_acl be ex glhandle x).status
          = { major := ERR_FSAL_NO_ERROR, minor := 0 }) := by
  unfold glusterfs_set_acl fsalstat
  by_cases h1 : be.glfs_h_acl_set ex.gl_fs glhandle ACL_TYPE_ACCESS x.e_acl < 0
  · simp [h1]
    exact ⟨_, _, ⟨rfl, rfl⟩, h1⟩
  · by_cases hd : x.is_dir = true
    · cases hi : x.i_acl with
      | none =>
        simp [h1, hd, hi]
        exact not_lt.mp h1
      | some i =>
        by_cases h2 : be.glfs_h_acl_set ex.gl_fs glhandle ACL_TYPE_DEFAULT (some i) < 0
        · simp [h1, hd, hi, h2]
          exact ⟨_, _, Or.inr ⟨rfl, rfl⟩, h2⟩
        · simp [h1, hd, hi, h2]
          rintro t a (⟨rfl, rfl⟩ | ⟨rfl, rfl⟩)
          · exact not_lt.mp h1
          · exact not_lt.mp h2
    · simp [h1, hd]
      exact not_lt.mp h1

/-- C16: glusterfs_process_acl answers a null ACL with the fault status and
makes no conversion; it answers a failed access conversion with the fault
status; otherwise it returns the no-error status, having attempted the
inherited conversion exactly when the object is a directory, whatever that
conversion yields. -/
theorem glusterfs_process_acl_status (be : acl_store_backend) (fs object : Nat)
    (attrs : attrlist) (x : glusterfs_fsal_xstat_t) :
    (attrs.acl = none →
      (glusterfs_process_acl be fs object attrs x).status
          = { major := ERR_FSAL_FAULT, minor := 0 }
      ∧ (glusterfs_process_acl be fs object attrs x).calls = [])
    ∧ (∀ acl, attrs.acl = some acl → be.fsal_acl_2_posix_acl acl ACL_TYPE_ACCESS = none →
      (glusterfs_process_acl be fs object attrs x).status
          = { major := ERR_FSAL_FAULT, minor := 0 }
      ∧ (glusterfs_process_acl be fs object attrs x).calls
          = [store_call.to_posix acl ACL_TYPE_ACCESS])
    ∧ (∀ acl e, attrs.acl = some acl →
      be.fsal_acl_2_posix_acl acl ACL_TYPE_ACCESS = some e →
      (glusterfs_process_acl be fs object attrs x).status
          = { major := ERR_FSAL_NO_ERROR, minor := 0 }
      ∧ (glusterfs_process_acl be fs object attrs x).calls.head?
          = some (store_call.to_posix acl ACL_TYPE_ACCESS)
      ∧ ((∃ a, store_call.to_posix a ACL_TYPE_DEFAULT
            ∈ (glusterfs_process_acl be fs object attrs x).calls) ↔ x.is_dir = true)
      ∧ (glusterfs_process_acl be fs object attrs x).buffxstat.e_acl = some e
      ∧ (x.is_dir = true →
          (glusterfs_process_acl be fs object attrs x).buffxstat.i_acl
            = be.fsal_acl_2_posix_acl acl ACL_TYPE_DEFAULT)) := by
  unfold glusterfs_process_acl fsalstat
  refine ⟨?_, ?_, ?_⟩
  · intro h
    simp [h]
  · intro acl h hc
    simp [h, hc]
  · intro acl e h hc
    by_cases hd : x.is_dir = true
    · simp [h, hc, hd]
    · simp [h, hc, hd]

/-- C17: with the ACL requested and the access ACL retrieved, glusterfs_get_acl
on a directory also retrieves the inherited ACL and returns exactly the
status of converting the access ACL together with the inherited ACL, absent
or not, whatever the inherited retrieval reported; on another object it
makes no inherited retrieval and returns exactly the status of converting
the access ACL alone. -/
theorem glusterfs_get_acl_convert (be : acl_backend) (errno : Int)
    (ex : glusterfs_export) (glhandle : Nat) (x : glusterfs_fsal_xstat_t) (a : attrlist)
    (e : acl_t)
    (hmask : FSAL_TEST_MASK a.mask ATTR_ACL = true)
    (hget : be.glfs_h_acl_get ex.gl_fs glhandle ACL_TYPE_ACCESS = acl_get_result.acl e) :
    (x.is_dir = true →
      (glusterfs_get_acl be true errno ex glhandle x a).calls
          = [acl_call.acl_get ex.gl_fs glhandle ACL_TYPE_ACCESS,
             acl_call.acl_get ex.gl_fs glhandle ACL_TYPE_DEFAULT,
             acl_call.convert_for_dir e
               (be.glfs_h_acl_get ex.gl_fs glhandle ACL_TYPE_DEFAULT).ptr]
      ∧ (glusterfs_get_acl be true errno ex glhandle x a).status
          = (be.posix_acl_2_fsal_acl_for_dir e
              (be.glfs_h_acl_get ex.gl_fs glhandle ACL_TYPE_DEFAULT).ptr).1
      ∧ (glusterfs_get_acl be true errno ex glhandle x a).fsalattr.acl
          = (be.posix_acl_2_fsal_acl_for_dir e
              (be.glfs_h_acl_get ex.gl_fs glhandle ACL_TYPE_DEFAULT).ptr).2)
    ∧ (x.is_dir = false →
      (glusterfs_get_acl be true errno ex glhandle x a).calls
          = [acl_call.acl_get ex.gl_fs glhandle ACL_TYPE_ACCESS, acl_call.convert e]
      ∧ acl_call.acl_get ex.gl_fs glhandle ACL_TYPE_DEFAULT
          ∉ (glusterfs_get_acl be true errno ex glhandle x a).calls
      ∧ (glusterfs_get_acl be true errno ex glhandle x a).status
          = (be.posix_acl_2_fsal_acl e).1
      ∧ (glusterfs_get_acl be true errno ex glhandle x a).fsalattr.acl
          = (be.posix_acl_2_fsal_acl e).2) := by
  unfold glusterfs_get_acl
  simp only [hmask, hget, Bool.and_self, if_true, acl_get_result.ptr,
    acl_get_result.errno_after]
  constructor
  · intro hd
    simp [hd]
  · intro hd
    simp [hd]

/-- C18, as the code has it: when the mask does not include the ACL attribute,
glusterfs_get_acl makes no backend call, returns the no-error status, sets
the record's ACL reference to null and leaves every other field of the
record, the record buffxstat and errno as they were. -/
theorem glusterfs_get_acl_unrequested (be : acl_backend) (acl_support : Bool) (errno : Int)
    (ex : glusterfs_export) (glhandle : Nat) (x : glusterfs_fsal_xstat_t) (a : attrlist)
    (hmask : FSAL_TEST_MASK a.mask ATTR_ACL = false) :
    (glusterfs_get_acl be acl_support errno ex glhandle x a).calls = []
    ∧ (glusterfs_get_acl be acl_support errno ex glhandle x a).status
        = { major := ERR_FSAL_NO_ERROR, minor := 0 }
    ∧ (glusterfs_get_acl be acl_support errno ex glhandle x a).fsalattr.acl = none
    ∧ (glusterfs_get_acl be acl_support errno ex glhandle x a).fsalattr
        = { a with acl := none }
    ∧ (glusterfs_get_acl be acl_support errno ex glhandle x a).buffxstat = x
    ∧ (glusterfs_get_acl be acl_support errno ex glhandle x a).errno = errno := by
  unfold glusterfs_get_acl
  simp [hmask]

/-- A run of C17 on a regular file: one retrieval, one conversion. -/
theorem glusterfs_get_acl_convert_witness :
    (glusterfs_get_acl acl_backend_full true 0 sample_export 7 zero_xstat
        { zero_attrlist with mask := ATTR_ACL }).calls
      = [acl_call.acl_get 1 7 ACL_TYPE_ACCESS, acl_call.convert [1, 2, 3]] :=
  ((glusterfs_get_acl_convert acl_backend_full 0 sample_export 7 zero_xstat
    { zero_attrlist with mask := ATTR_ACL } [1, 2, 3] (by decide) rfl).2 rfl).1

/-- A run of C18 on a record that holds an ACL reference: no call is made. -/
theorem glusterfs_get_acl_unrequested_witness :
    (glusterfs_get_acl acl_backend_full true 0 sample_export 7 zero_xstat
        attrs_with_acl).calls = [] :=
  (glusterfs_get_acl_unrequested acl_backend_full true 0 sample_export 7 zero_xstat
    attrs_with_acl (by decide)).1

/-- A run against C18 as stated: the mask is empty and the caller's record
holds an ACL reference; after glusterfs_get_acl the reference is null. -/
theorem glusterfs_get_acl_unrequested_counterexample :
    FSAL_TEST_MASK attrs_with_acl.mask ATTR_ACL = false
    ∧ attrs_with_acl.acl = some [9]
    ∧ (glusterfs_get_acl acl_backend_full true 0 sample_export 7 zero_xstat
        attrs_with_acl).fsalattr.acl = none
    ∧ (glusterfs_get_acl acl_backend_full true 0 sample_export 7 zero_xstat
        attrs_with_acl).fsalattr.acl ≠ attrs_with_acl.acl := by
  decide

/-! ### The release of the thread attributes -/

/-- The creation loop makes no release of its own. -/
theorem create_loop_destroy (env : pthread_env) :
    ∀ (r i : Nat) (tr : List up_event),
      (create_loop env r i tr).2.count up_event.attr_destroy
        = tr.count up_event.attr_destroy := by
  intro r
  induction r with
  | zero =>
    intro i tr
    unfold create_loop
    split_ifs <;> simp [List.count_append, List.count_cons]
  | succ r ih =>
    intro i tr
    rw [create_loop]
    split_ifs
    · rw [ih]
      simp [List.count_append, List.count_cons]
    · simp [List.count_append, List.count_cons]

/-- The creation loop does not look at the result of the release. -/
theorem create_loop_env (env : pthread_env) (d : Int) :
    ∀ (r i : Nat) (tr : List up_event),
      create_loop { env with attr_destroy := d } r i tr = create_loop env r i tr := by
  intro r
  induction r with
  | zero =>
    intro i tr
    unfold create_loop
    rfl
  | succ r ih =>
    intro i tr
    rw [create_loop, create_loop]
    simp only [ih]

/-- C19: whatever the attribute calls and the creation attempts return,
initiate_up_thread calls pthread_attr_destroy exactly once, as its last
call, and neither its return value nor its calls depend on what that
release returns. -/
theorem initiate_up_thread_release (env : pthread_env) :
    (initiate_up_thread env).trace.count up_event.attr_destroy = 1
    ∧ (initiate_up_thread env).trace.getLast? = some up_event.attr_destroy
    ∧ (∀ d : Int,
        (initiate_up_thread { env with attr_destroy := d }).retval
          = (initiate_up_thread env).retval
        ∧ (initiate_up_thread { env with attr_destroy := d }).trace
          = (initiate_up_thread env).trace) := by
  refine ⟨?_, ?_, ?_⟩
  · unfold initiate_up_thread
    simp only []
    split_ifs <;>
      simp [List.count_append, List.count_cons, create_loop_destroy]
  · unfold initiate_up_thread
    simp only []
    split_ifs <;> simp
  · intro d
    unfold initiate_up_thread
    simp [create_loop_env]

/-- A run of C19 on a failing attribute initialisation. -/
theorem initiate_up_thread_release_witness :
    (initiate_up_thread attr_init_fails).trace
      = [up_event.attr_init, up_event.attr_destroy]
    ∧ (initiate_up_thread attr_init_fails).trace.count up_event.attr_destroy = 1 :=
  ⟨by decide, (initiate_up_thread_release attr_init_fails).1⟩

/-! ### A failing ACL retrieval that leaves errno at 0 -/

/-- The translation of a backend code is an error status exactly for the
nonzero codes. -/
theorem gluster2fsal_error_is_error (c : Int) :
    FSAL_IS_ERROR (gluster2fsal_error c) = true ↔ c ≠ 0 := by
  by_cases h : c = 0
  · subst h
    decide
  · have ite_ne : ∀ (p : Prop) [Decidable p] (a b : fsal_errors_t),
        a ≠ ERR_FSAL_NO_ERROR → b ≠ ERR_FSAL_NO_ERROR →
        (if p then a else b) ≠ ERR_FSAL_NO_ERROR := by
      intro p _ a b ha hb
      split_ifs <;> assumption
    have hm : gluster2fsal_major c ≠ ERR_FSAL_NO_ERROR := by
      unfold gluster2fsal_major
      rw [if_neg h]
      repeat (first | exact (by decide) | apply ite_ne _ _ _ (by decide))
    unfold FSAL_IS_ERROR gluster2fsal_error
    simp only [ne_eq, hm, not_false_eq_true, decide_True, h]

/-- C20: gluster2fsal_error gives an error status exactly for the nonzero
codes; so, with the ACL requested, an access-ACL retrieval that fails and
leaves errno at 0 makes glusterfs_get_acl return the no-error status with a
null ACL reference, and construct_handle, given an export that supports the
ACL attribute, then returns 0 with a handle whatever the type of the object
is. -/
theorem errno_zero_acl_failure :
    (∀ c : Int, FSAL_IS_ERROR (gluster2fsal_error c) = true ↔ c ≠ 0)
    ∧ (∀ (be : acl_backend) (errno : Int) (ex : glusterfs_export) (glhandle : Nat)
        (x : glusterfs_fsal_xstat_t) (a : attrlist),
        FSAL_TEST_MASK a.mask ATTR_ACL = true →
        be.glfs_h_acl_get ex.gl_fs glhandle ACL_TYPE_ACCESS = acl_get_result.null 0 →
        (glusterfs_get_acl be true errno ex glhandle x a).status
            = { major := ERR_FSAL_NO_ERROR, minor := 0 }
        ∧ (glusterfs_get_acl be true errno ex glhandle x a).fsalattr.acl = none)
    ∧ (∀ (cv : fsal_convert) (be : acl_backend) (errno : Int) (ex : glusterfs_export)
        (sb : stat) (glhandle : Nat) (globjhdl : List Nat) (len : Int) (vol_uuid : List Nat),
        FSAL_TEST_MASK ex.fs_supported_attrs ATTR_ACL = true →
        be.glfs_h_acl_get ex.gl_fs glhandle ACL_TYPE_ACCESS = acl_get_result.null 0 →
        GLAPI_UUID_LENGTH ≤ vol_uuid.length → GFAPI_HANDLE_LENGTH ≤ globjhdl.length →
        ∃ r hd, construct_handle cv be true true errno ex sb glhandle globjhdl len vol_uuid
            = some r
          ∧ r.ret = 0
          ∧ r.obj = some hd
          ∧ hd.attributes.acl = none
          ∧ hd.attributes.type = (constructing_attributes cv ex sb).type) := by
  refine ⟨gluster2fsal_error_is_error, ?_, ?_⟩
  · intro be errno ex glhandle x a hmask hget
    rw [glusterfs_get_acl_null be errno 0 ex glhandle x a hmask hget]
    exact ⟨rfl, rfl⟩
  · intro cv be errno ex sb glhandle globjhdl len vol_uuid hmask hget hv hg
    have hm : FSAL_TEST_MASK (constructing_attributes cv ex sb).mask ATTR_ACL = true := by
      unfold constructing_attributes
      rw [projected_mask]
      exact hmask
    have hacl : ∀ x, glusterfs_get_acl be true errno ex glhandle x
        (constructing_attributes cv ex sb) =
        { status := gluster2fsal_error 0, buffxstat := { x with e_acl := none },
          fsalattr := { constructing_attributes cv ex sb with acl := none }, errno := 0,
          calls := [acl_call.acl_get ex.gl_fs glhandle ACL_TYPE_ACCESS] } :=
      fun x => glusterfs_get_acl_null be errno 0 ex glhandle x _ hm hget
    have hst : (constructing_acl cv be true errno ex sb glhandle).status
        = gluster2fsal_error 0 := by
      unfold constructing_acl
      simp only [hacl]
    have hfa : (constructing_acl cv be true errno ex sb glhandle).fsalattr
        = { constructing_attributes cv ex sb with acl := none } := by
      unfold constructing_acl
      simp only [hacl]
    have hne : ¬ (FSAL_IS_ERROR (constructing_acl cv be true errno ex sb glhandle).status
          = true
          ∧ ¬ ((constructing_attributes cv ex sb).type = SYMBOLIC_LINK
            ∧ (constructing_acl cv be true errno ex sb glhandle).status.minor = ENOENT)) := by
      rw [hst]
      intro hh
      exact absurd hh.1 (by decide)
    rw [construct_handle_eq, memcpy_identifier vol_uuid globjhdl hv hg]
    rw [if_neg (by decide), if_neg hne]
    refine ⟨_, _, rfl, rfl, rfl, ?_, ?_⟩
    · show (constructing_acl cv be true errno ex sb glhandle).fsalattr.acl = none
      rw [hfa]
    · show (constructing_acl cv be true errno ex sb glhandle).fsalattr.type = _
      rw [hfa]

/-- A run of C20 on a regular file: the retrieval fails with errno 0 and the
handle is built. -/
theorem errno_zero_acl_failure_witness :
    (constructing_attributes std_convert sample_export regular_stat).type = REGULAR_FILE
    ∧ ∃ r hd, construct_handle std_convert silent_backend true true 0 sample_export
          regular_stat 7 (List.range 16) 16 (List.replicate 16 9) = some r
        ∧ r.ret = 0 ∧ r.obj = some hd ∧ hd.attributes.acl = none := by
  refine ⟨by decide, ?_⟩
  obtain ⟨r, hd, h1, h2, h3, h4, -⟩ :=
    errno_zero_acl_failure.2.2 std_convert silent_backend 0 sample_export regular_stat 7
      (List.range 16) 16 (List.replicate 16 9) (by decide) rfl (by decide) (by decide)
  exact ⟨r, hd, h1, h2, h3, h4⟩

end Gluster
